import Mathlib

/-!
Verification of the data preparation, filtering, statistics and ML prediction
core of the breast-cancer dashboard backend (`backend/services/data_processor.py`
and `backend/services/ml_models.py`).

The tabular data model is a shallow embedding of a pandas `DataFrame`:
a frame is an ordered list of named, dtype-tagged columns, and a cell is a
rational number, a string, or missing (`NaN`).  Rational numbers stand for the
floating point values of the source; none of the verified claims depends on
float rounding.
-/

section PipelineModel

-- Rational arithmetic must evaluate inside `decide` witnesses, so the
-- irreducibility of the kernel rational operations is lifted locally.
attribute [local semireducible] Rat.add Rat.mul Rat.inv Rat.sub Rat.ofScientific

/-- A returned service dictionary: either a structured failure
(`{"success": False, "error": msg}`) or a success payload.  Raised Python
exceptions are modelled separately by `Except String`. -/
inductive SvcResult (α : Type) where
  | failure (error : String)
  | success (val : α)
deriving DecidableEq, Repr

/-- Whether a service dictionary reports success. -/
def SvcResult.isSuccess {α : Type} : SvcResult α → Bool
  | .failure _ => false
  | .success _ => true

/-- A cell of a pandas column: a numeric value, a string, or missing (NaN).
Note that pandas `duplicated`/`drop_duplicates` treat NaN cells as equal,
which matches the decidable equality derived here. -/
inductive Cell where
  | num (q : ℚ)
  | str (s : String)
  | na
deriving DecidableEq, Repr

/-- The dtype of a column as far as the service distinguishes them:
`select_dtypes(include=[np.number])` vs `select_dtypes(include=['object'])`. -/
inductive Dtype where
  | numeric
  | object
deriving DecidableEq, Repr

/-- A named column with its dtype and cells. -/
structure Col where
  name : String
  dt : Dtype
  vals : List Cell
deriving DecidableEq, Repr

/-- A data frame: an ordered list of columns.  Well-formedness (all columns
have the same length) is the predicate `DataFrame.wf` below. -/
structure DataFrame where
  cols : List Col
deriving DecidableEq, Repr

namespace DataFrame

/-- Number of rows (`len(df)`): the length of the first column, 0 for an
empty column list. -/
def nrows (df : DataFrame) : Nat :=
  match df.cols with
  | [] => 0
  | c :: _ => c.vals.length

/-- `list(df.columns)`. -/
def colNames (df : DataFrame) : List String := df.cols.map (·.name)

/-- `df[name]`: the first column carrying the name (column names are unique
in the datasets handled by the service). -/
def getCol (df : DataFrame) (n : String) : Option Col :=
  df.cols.find? (fun c => c.name == n)

/-- `name in df.columns`. -/
def hasCol (df : DataFrame) (n : String) : Bool := (df.getCol n).isSome

/-- Every column has the same number of rows. -/
def wf (df : DataFrame) : Prop := ∀ c ∈ df.cols, c.vals.length = df.nrows

instance : DecidablePred wf := fun df => by
  unfold wf; infer_instance

/-- The row at index `i`, one cell per column (missing for out of range,
which never happens on well-formed frames). -/
def rowAt (df : DataFrame) (i : Nat) : List Cell :=
  df.cols.map (fun c => c.vals.getD i .na)

/-- All rows, in order. -/
def rows (df : DataFrame) : List (List Cell) :=
  (List.range df.nrows).map df.rowAt

/-- Keep exactly the rows whose indices appear in `idxs`, in that order
(the row-subsetting primitive behind boolean masks and `drop_duplicates`). -/
def selectRows (df : DataFrame) (idxs : List Nat) : DataFrame :=
  ⟨df.cols.map (fun c => { c with vals := idxs.map (fun i => c.vals.getD i .na) })⟩

/-- Row filtering by an index predicate. -/
def filterIdx (df : DataFrame) (p : Nat → Bool) : DataFrame :=
  df.selectRows ((List.range df.nrows).filter p)

/-- Indices of the rows kept by `drop_duplicates()`: a row is kept iff no
earlier row is equal to it (pandas keeps the first occurrence and treats
NaN = NaN). -/
def dupKeepIdx (df : DataFrame) : List Nat :=
  (List.range df.nrows).filter
    (fun i => !((List.range i).any (fun j => decide (df.rowAt j = df.rowAt i))))

/-- `df.drop_duplicates()`. -/
def dropDuplicates (df : DataFrame) : DataFrame := df.selectRows df.dupKeepIdx

/-- `df.duplicated().sum()`: the number of rows dropped by `drop_duplicates`. -/
def duplicatedCount (df : DataFrame) : Nat := df.nrows - df.dupKeepIdx.length

end DataFrame

/-- `Series.isnull().sum()` for one column. -/
def Col.missingCount (c : Col) : Nat := c.vals.countP (· == Cell.na)

/-- The numeric values present in a column (pandas aggregations skip NaN). -/
def Col.presentNums (c : Col) : List ℚ :=
  c.vals.filterMap (fun x => match x with | .num q => some q | _ => none)

/-- The string values present in a column. -/
def Col.presentStrs (c : Col) : List String :=
  c.vals.filterMap (fun x => match x with | .str s => some s | _ => none)

/-- `Series.mean()`: `None` models pandas NaN (mean of an all-missing column). -/
def listMeanQ (l : List ℚ) : Option ℚ :=
  if l.isEmpty then none else some (l.sum / l.length)

/-- Lexicographic comparison of code-point lists (the order Python uses to
compare strings, hence the order in which pandas sorts modal values). -/
def codeLe : List Nat → List Nat → Bool
  | [], _ => true
  | _ :: _, [] => false
  | a :: as, b :: bs => if a < b then true else if b < a then false else codeLe as bs

/-- Python string comparison `a <= b` (code-point lexicographic). -/
def pyStrLe (a b : String) : Bool := codeLe (a.data.map Char.toNat) (b.data.map Char.toNat)

/-- `Series.mode()[0]` for a string column: pandas `mode` returns the modal
values sorted ascending, so index 0 is the least value among those of maximal
multiplicity; `none` models an empty mode (all values missing). -/
def modeFirst (l : List String) : Option String :=
  ((l.dedup).insertionSort (fun a b => pyStrLe a b = true)).argmax (fun s => l.count s)

/-! ## Text normalization (`clean_data`, categorical branch)

`self.df[col] = self.df[col].astype(str).str.strip()` followed by the exact
value `replace` with the Yes/No/null dictionary. -/

/-- Whitespace characters removed by Python `str.strip()` (ASCII subset;
the datasets contain no exotic Unicode whitespace). -/
def isPyWs (c : Char) : Bool := c = ' ' || c = '\t' || c = '\n' || c = '\r'

/-- Strip trailing whitespace from a character list. -/
def trimRight (l : List Char) : List Char := ((l.reverse).dropWhile isPyWs).reverse

/-- Character-list model of Python `str.strip()`. -/
def trimChars (l : List Char) : List Char := trimRight (l.dropWhile isPyWs)

/-- Python `s.strip()`. -/
def pyStrip (s : String) : String := ⟨trimChars s.data⟩

/-- `str(cell)` as applied by `astype(str)`: `str(np.nan) = "nan"`.  The
formatting of numbers is only used by filters on string form; the claims do
not depend on the float rendering, so a rational is rendered by `toString`. -/
def cellToStr : Cell → String
  | .num q => toString q
  | .str s => s
  | .na => "nan"

/-- Keys of the `replace` dictionary that map to `"Yes"`. -/
def yesKeys : List String := ["Sí", "Si", "sí", "si", "YES", "yes"]

/-- Keys of the `replace` dictionary that map to `"No"`. -/
def noKeys : List String := ["NO", "no"]

/-- Keys of the `replace` dictionary that map to `np.nan`. -/
def nullKeys : List String := ["nan", "NaN", "None"]

/-- The exact-match `replace` dictionary of `clean_data` (pandas `replace`
with a dict substitutes whole values that equal a key, not substrings and
not case-insensitively). -/
def replaceYesNo (s : String) : Cell :=
  if s ∈ yesKeys then .str "Yes"
  else if s ∈ noKeys then .str "No"
  else if s ∈ nullKeys then .na
  else .str s

/-- One cell through `astype(str).str.strip()` then the `replace` dict. -/
def textNorm (c : Cell) : Cell := replaceYesNo (pyStrip (cellToStr c))

/-! ## `clean_data` -/

/-- One entry of the imputation log (`imputation_log[col]`); the fill value
is a `Cell` so that the NaN fill value of an all-missing numeric column
(`mean()` of no values) is representable. -/
structure ImpEntry where
  column : String
  valuesImputed : Nat
  method : String
  fillValue : Cell
deriving DecidableEq, Repr

/-- Numeric pass of step 3 of `clean_data` on one column: impute missing
values with the column mean; the log entry is written whenever the column had
missing values, even when the mean is itself NaN (all-missing column, where
`fillna(NaN)` changes nothing). -/
def imputeNumCol (c : Col) : Col × Option ImpEntry :=
  if c.missingCount > 0 then
    match listMeanQ c.presentNums with
    | some m =>
        ({ c with vals := c.vals.map (fun v => if v = .na then .num m else v) },
         some ⟨c.name, c.missingCount, "mean", .num m⟩)
    | none => (c, some ⟨c.name, c.missingCount, "mean", .na⟩)
  else (c, none)

/-- Categorical pass of step 3 of `clean_data` on one column: strip and
normalize text, then impute remaining missing values with the mode (no fill
and no log entry when the mode is empty). -/
def cleanTextCol (c : Col) : Col × Option ImpEntry :=
  let vals1 := c.vals.map textNorm
  let miss := vals1.countP (· == Cell.na)
  if miss > 0 then
    match modeFirst (vals1.filterMap (fun v => match v with | .str s => some s | _ => none)) with
    | some m =>
        ({ c with vals := vals1.map (fun v => if v = .na then .str m else v) },
         some ⟨c.name, miss, "mode", .str m⟩)
    | none => ({ c with vals := vals1 }, none)
  else ({ c with vals := vals1 }, none)

/-- The numeric pass applies only to columns of numeric dtype. -/
def numStep (c : Col) : Col × Option ImpEntry :=
  if c.dt = .numeric then imputeNumCol c else (c, none)

/-- The categorical pass applies only to columns of object dtype. -/
def catStep (c : Col) : Col × Option ImpEntry :=
  if c.dt = .object then cleanTextCol c else (c, none)

/-- Per-column missing-value counts, listing only columns with missing
values (the `missing_before` / `missing_after` loops of `clean_data`;
percentages are derived data and omitted from the model). -/
def missingReport (df : DataFrame) : List (String × Nat) :=
  df.cols.filterMap (fun c => if c.missingCount > 0 then some (c.name, c.missingCount) else none)

/-- The dictionary returned by `clean_data` (the success case). -/
structure CleanReport where
  initialRows : Nat
  finalRows : Nat
  duplicatesRemoved : Nat
  missingBefore : List (String × Nat)
  missingAfter : List (String × Nat)
  imputation : List ImpEntry
deriving DecidableEq, Repr

/-- `DataProcessor.clean_data` on a loaded frame: snapshot missing values,
drop duplicates, impute numeric columns with the mean, normalize and impute
text columns with the mode, snapshot missing values again. -/
def cleanData (df : DataFrame) : DataFrame × CleanReport :=
  let initialRows := df.nrows
  let missingBefore := missingReport df
  let dups := df.duplicatedCount
  let dfd := df.dropDuplicates
  let cols1 := dfd.cols.map (fun c => (numStep c).1)
  let log1 := dfd.cols.filterMap (fun c => (numStep c).2)
  let cols2 := cols1.map (fun c => (catStep c).1)
  let log2 := cols1.filterMap (fun c => (catStep c).2)
  let df2 : DataFrame := ⟨cols2⟩
  (df2,
   { initialRows := initialRows
     finalRows := df2.nrows
     duplicatesRemoved := dups
     missingBefore := missingBefore
     missingAfter := missingReport df2
     imputation := log1 ++ log2 })

/-- One entry of `preparation_log["transformations"]`: operation name and
affected columns. -/
structure TransEntry where
  operation : String
  columnsAffected : List String
deriving DecidableEq, Repr

/-- The processor state touched by `clean_data`: the mutable frame and the
transformation log (the other `preparation_log` sections are overwritten,
not appended, and are part of the returned report in this model). -/
structure ProcState where
  df : Option DataFrame
  transformations : List TransEntry
deriving DecidableEq, Repr

/-- Stateful `clean_data`: fails with the "No data loaded" error when no
frame is loaded; otherwise resets the transformation log (the comment in the
source: "Reset transformation log to avoid duplicates") and appends the
single text-standardization entry, whose affected columns are the object
columns of the deduplicated frame. -/
def cleanDataSt (st : ProcState) : ProcState × SvcResult CleanReport :=
  match st.df with
  | none => (st, .failure "No data loaded")
  | some d =>
    let (d2, r) := cleanData d
    let catCols := ((d.dropDuplicates).cols.filter (fun c => c.dt = .object)).map (·.name)
    ({ df := some d2,
       transformations := [⟨"text_standardization", catCols⟩] }, .success r)

/-! ## Filter engine (`apply_filters`)

Each criterion narrows the running frame; every criterion except the age
range is wrapped in a try/except that leaves the frame unchanged on error.
The age comparison `df['age'] >= min` raises a `TypeError` when the age
column is an object column containing strings, and that stage is not
guarded. -/

/-- The filter specification dictionary. -/
structure FilterSpec where
  ageMin : Option ℚ := none
  ageMax : Option ℚ := none
  diagnosis : Option String := none
  menopause : Option String := none
  birads : Option String := none
  breastfeeding : Option String := none
deriving DecidableEq, Repr

/-- `filters.get(k) and filters[k] != 'all'`: present, truthy (non-empty)
and different from "all". -/
def activeStr : Option String → Bool
  | none => false
  | some s => !(s == "") && !(s == "all")

/-- Keep the rows of `df` whose cell in column `colName` satisfies `p`
(a boolean mask built from one column).  Identity when the column does not
exist. -/
def filterByCol (df : DataFrame) (colName : String) (p : Cell → Bool) : DataFrame :=
  match df.getCol colName with
  | none => df
  | some c => df.filterIdx (fun i => p (c.vals.getD i .na))

/-- The age criterion mask: pandas comparisons against NaN are false, so a
missing age never passes. -/
def agePass (lo hi : ℚ) : Cell → Bool
  | .num q => decide (lo ≤ q) && decide (q ≤ hi)
  | _ => false

/-- Age-range stage.  Applied only when both bounds are supplied and an
`age` column exists.  Not guarded by try/except: comparing a string-valued
object column against a number raises `TypeError` (modelled as the error
case). -/
def stageAge (f : FilterSpec) (df : DataFrame) : Except String DataFrame :=
  match f.ageMin, f.ageMax with
  | some lo, some hi =>
    match df.getCol "age" with
    | none => .ok df
    | some c =>
      if c.dt = .object ∧ c.vals.any (fun v => match v with | .str _ => true | _ => false) then
        .error "TypeError: comparison of str and numeric filter bound"
      else .ok (df.filterIdx (fun i => agePass lo hi (c.vals.getD i .na)))
  | _, _ => .ok df

/-- Diagnosis stage: `Maligno` keeps `cancer == 'Yes'`, `Benigno` keeps
`cancer == 'No'`, any other value leaves the frame unchanged. -/
def stageDiagnosis (f : FilterSpec) (df : DataFrame) : DataFrame :=
  if activeStr f.diagnosis && df.hasCol "cancer" then
    if f.diagnosis = some "Maligno" then filterByCol df "cancer" (fun v => v == .str "Yes")
    else if f.diagnosis = some "Benigno" then filterByCol df "cancer" (fun v => v == .str "No")
    else df
  else df

/-- Menopause stage, on the trimmed string form of the cell
(`astype(str).str.strip()`): `Premenopáusica` keeps cells equal to "No",
`Posmenopáusica` keeps cells different from "No" (a missing cell renders as
"nan" and therefore counts as postmenopausal). -/
def stageMenopause (f : FilterSpec) (df : DataFrame) : DataFrame :=
  if activeStr f.menopause && df.hasCol "menopause" then
    if f.menopause = some "Premenopáusica" then
      filterByCol df "menopause" (fun v => pyStrip (cellToStr v) == "No")
    else if f.menopause = some "Posmenopáusica" then
      filterByCol df "menopause" (fun v => !(pyStrip (cellToStr v) == "No"))
    else df
  else df

/-- BIRADS stage: the trimmed string form of the cell must start with the
filter value (so "4" matches "4", "4A", "4B", ...). -/
def stageBirads (f : FilterSpec) (df : DataFrame) : DataFrame :=
  match f.birads with
  | none => df
  | some b =>
    if activeStr f.birads && df.hasCol "birads" then
      filterByCol df "birads" (fun v => (pyStrip (cellToStr v)).startsWith b)
    else df

/-- Breastfeeding stage: `Sí` keeps cells different from "No" (a pandas `!=`
against NaN is true, so missing cells pass), `No` keeps cells equal to "No". -/
def stageBreastfeeding (f : FilterSpec) (df : DataFrame) : DataFrame :=
  if activeStr f.breastfeeding && df.hasCol "breastfeeding" then
    if f.breastfeeding = some "Sí" then
      filterByCol df "breastfeeding" (fun v => !(v == .str "No"))
    else if f.breastfeeding = some "No" then
      filterByCol df "breastfeeding" (fun v => v == .str "No")
    else df
  else df

/-- `DataProcessor.apply_filters`: the five criteria narrow the frame in
sequence; the source returns the narrowed copy and never assigns `self.df`. -/
def applyFilters (df : DataFrame) (f : FilterSpec) : Except String DataFrame := do
  let d1 ← stageAge f df
  let d2 := stageDiagnosis f d1
  let d3 := stageMenopause f d2
  let d4 := stageBirads f d3
  pure (stageBreastfeeding f d4)

/-- `apply_filters` as a step on the processor state: the source works on
`self.df.copy()` and never assigns `self.df`, so the state is returned
unchanged; with no loaded frame the source returns `None`. -/
def applyFiltersProc (st : ProcState) (f : FilterSpec) :
    ProcState × Except String (Option DataFrame) :=
  match st.df with
  | none => (st, .ok none)
  | some d => (st, (applyFilters d f).map some)

/-- The age criterion cannot raise: either it is inactive, or the age column
is absent, or the age column is not a string-valued object column (the
unguarded `df['age'] >= min` comparison raises a `TypeError` on strings). -/
def ageFilterSafe (df : DataFrame) (f : FilterSpec) : Bool :=
  match f.ageMin, f.ageMax with
  | some _, some _ =>
    match df.getCol "age" with
    | some c =>
      !(c.dt == .object && c.vals.any (fun v => match v with | .str _ => true | _ => false))
    | none => true
  | _, _ => true

/-! The `crit*` predicates below restate the claimed behavior of the filter
engine in the wording of the specification: each supplied criterion whose
column exists contributes one conjunct evaluated on the stored frame, and a
criterion with a missing column (or an unknown value) contributes nothing.
They are the specification side of the refinement proved in the filter
theorems; `apply_filters` above is the translation of the source. -/

/-- Age-range conjunct of the claimed filter semantics. -/
def critAge (df : DataFrame) (f : FilterSpec) (i : Nat) : Bool :=
  match f.ageMin, f.ageMax with
  | some lo, some hi =>
    match df.getCol "age" with
    | some c => agePass lo hi (c.vals.getD i .na)
    | none => true
  | _, _ => true

/-- Diagnosis conjunct of the claimed filter semantics. -/
def critDiagnosis (df : DataFrame) (f : FilterSpec) (i : Nat) : Bool :=
  if activeStr f.diagnosis && df.hasCol "cancer" then
    match df.getCol "cancer" with
    | some c =>
      if f.diagnosis = some "Maligno" then (c.vals.getD i .na) == Cell.str "Yes"
      else if f.diagnosis = some "Benigno" then (c.vals.getD i .na) == Cell.str "No"
      else true
    | none => true
  else true

/-- Menopause conjunct of the claimed filter semantics. -/
def critMenopause (df : DataFrame) (f : FilterSpec) (i : Nat) : Bool :=
  if activeStr f.menopause && df.hasCol "menopause" then
    match df.getCol "menopause" with
    | some c =>
      if f.menopause = some "Premenopáusica" then pyStrip (cellToStr (c.vals.getD i .na)) == "No"
      else if f.menopause = some "Posmenopáusica" then
        !(pyStrip (cellToStr (c.vals.getD i .na)) == "No")
      else true
    | none => true
  else true

/-- BIRADS conjunct of the claimed filter semantics. -/
def critBirads (df : DataFrame) (f : FilterSpec) (i : Nat) : Bool :=
  match f.birads with
  | none => true
  | some b =>
    if activeStr f.birads && df.hasCol "birads" then
      match df.getCol "birads" with
      | some c => (pyStrip (cellToStr (c.vals.getD i .na))).startsWith b
      | none => true
    else true

/-- Breastfeeding conjunct of the claimed filter semantics. -/
def critBreastfeeding (df : DataFrame) (f : FilterSpec) (i : Nat) : Bool :=
  if activeStr f.breastfeeding && df.hasCol "breastfeeding" then
    match df.getCol "breastfeeding" with
    | some c =>
      if f.breastfeeding = some "Sí" then !((c.vals.getD i .na) == Cell.str "No")
      else if f.breastfeeding = some "No" then (c.vals.getD i .na) == Cell.str "No"
      else true
    | none => true
  else true

/-- The AND of all supplied (and valid) criteria, evaluated on the stored
frame: the claimed conjunctive semantics of `apply_filters`. -/
def conjCriteria (df : DataFrame) (f : FilterSpec) (i : Nat) : Bool :=
  critAge df f i && (critDiagnosis df f i && (critMenopause df f i
    && (critBirads df f i && critBreastfeeding df f i)))

/-- The filter specification restricted to the criteria whose referenced
column exists in the frame (the "valid criteria present" of the claim). -/
def pruneSpec (df : DataFrame) (f : FilterSpec) : FilterSpec :=
  { ageMin := if df.hasCol "age" then f.ageMin else none
    ageMax := if df.hasCol "age" then f.ageMax else none
    diagnosis := if df.hasCol "cancer" then f.diagnosis else none
    menopause := if df.hasCol "menopause" then f.menopause else none
    birads := if df.hasCol "birads" then f.birads else none
    breastfeeding := if df.hasCol "breastfeeding" then f.breastfeeding else none }

/-! ## Statistics summary (`get_summary_statistics`, `_get_age_groups`) -/

/-- The trailing-half-up rounding used in witnesses is never needed: the
percentages returned by the summary are kept exact here (they are derived
display data; the Python `round(x, 2)` of a float is a presentation detail
no claim depends on). -/
def pct (part total : Nat) : ℚ := (part : ℚ) / (total : ℚ) * 100

/-- Descriptive statistics of one numeric column; every field is `none` when
pandas would produce NaN (empty column, or a single value for the sample
standard deviation).  The standard deviation is reported as the sample
variance (`std` squared): the claims never inspect it and keeping it rational
keeps the whole summary computable. -/
structure NumStats where
  mean : Option ℚ
  median : Option ℚ
  varSample : Option ℚ
  minV : Option ℚ
  maxV : Option ℚ
  q25 : Option ℚ
  q75 : Option ℚ
deriving DecidableEq, Repr

/-- `Series.quantile(p)` with pandas linear interpolation over the sorted
present values. -/
def quantileQ (l : List ℚ) (p : ℚ) : Option ℚ :=
  match l.insertionSort (· ≤ ·) with
  | [] => none
  | s =>
    let n := s.length
    let pos := p * ((n : ℚ) - 1)
    let i := pos.floor.toNat
    let frac := pos - pos.floor
    let lo := s.getD i 0
    let hi := s.getD (min (i + 1) (n - 1)) 0
    some (lo + frac * (hi - lo))

/-- Sample variance (pandas `std(ddof=1)` squared); NaN for fewer than two
values. -/
def sampleVar (l : List ℚ) : Option ℚ :=
  match listMeanQ l with
  | none => none
  | some m =>
    if l.length < 2 then none
    else some ((l.map (fun x => (x - m) ^ 2)).sum / ((l.length : ℚ) - 1))

/-- The numeric-statistics block for one column. -/
def numStatsOf (c : Col) : NumStats :=
  let xs := c.presentNums
  { mean := listMeanQ xs
    median := quantileQ xs (1/2)
    varSample := sampleVar xs
    minV := xs.min?
    maxV := xs.max?
    q25 := quantileQ xs (1/4)
    q75 := quantileQ xs (3/4) }

/-- Distinct values in order of first appearance (`List.dedup` keeps the last
occurrence, so first-occurrence deduplication is rebuilt here). -/
def dedupFirst {α : Type} [DecidableEq α] (l : List α) : List α :=
  l.foldl (fun acc a => if a ∈ acc then acc else acc ++ [a]) []

/-- `Series.value_counts()` of the string values of a column: distinct values
in order of first appearance, stably sorted by descending count. -/
def valueCounts (l : List String) : List (String × Nat) :=
  ((dedupFirst l).map (fun s => (s, l.count s))).insertionSort (fun a b => b.2 ≤ a.2)

/-- `pd.cut(age, bins=[0,30,40,50,60,100], labels=..., right=False)` for one
cell: every bin is right-open (`right=False`), including the last one, so an
age of exactly 100 falls in no bin. -/
def ageBins : List ℚ := [0, 30, 40, 50, 60, 100]

/-- The five labels of the age histogram. -/
def ageLabels : List String := ["<30", "30-39", "40-49", "50-59", "60+"]

/-- The label assigned by `pd.cut(..., right=False)` to one cell, if any. -/
def cutLabel (c : Cell) : Option String :=
  match c with
  | .num q =>
    ((ageBins.zip ageBins.tail).zip ageLabels).findSome?
      (fun x => if x.1.1 ≤ q ∧ q < x.1.2 then some x.2 else none)
  | _ => none

/-- `DataProcessor._get_age_groups`: the value counts of the cut labels over
the age column; a categorical `value_counts` lists every label, including
zero counts.  Returned in label order (the Python dict is keyed by the same
five labels; lookup semantics are unaffected). -/
def getAgeGroups (df : DataFrame) : List (String × Nat) :=
  match df.getCol "age" with
  | none => []
  | some c =>
    let assigned := c.vals.filterMap cutLabel
    ageLabels.map (fun L => (L, assigned.count L))

/-- The age statistics block: `int(min)`/`int(max)` raise on an all-missing
age column (`int(nan)`), modelled by the error case. -/
structure AgeStats where
  meanAge : ℚ
  medianAge : ℚ
  ageMin : Int
  ageMax : Int
  ageGroups : List (String × Nat)
deriving DecidableEq, Repr

/-- `int(x)` for a rational (Python `int()` truncates toward zero). -/
def pyInt (q : ℚ) : Int := if 0 ≤ q then q.floor else q.ceil

/-- The full summary dictionary (success payload). -/
structure Summary where
  totalRecords : Nat
  filteredRecords : Nat
  originalRecords : Nat
  numericStats : List (String × NumStats)
  categoricalStats : List (String × List (String × Nat))
  cancerDistribution : List (String × Nat × ℚ)
  ageStatistics : Option AgeStats
  message : Option String
deriving DecidableEq, Repr

/-- The empty summary returned for a filtered view with zero rows. -/
def emptySummary (original : Nat) : Summary :=
  { totalRecords := 0, filteredRecords := 0, originalRecords := original
    numericStats := [], categoricalStats := [], cancerDistribution := []
    ageStatistics := none, message := some "No records match the selected filters" }

/-- The summary of a non-empty view `v` of a stored frame with `original`
rows.  Fails only on the `int(nan)` conversion for an all-missing age
column. -/
def summarize (v : DataFrame) (original : Nat) : Except String Summary := do
  let numericCols := v.cols.filter (fun c => c.dt = .numeric)
  let categoricalCols := v.cols.filter (fun c => c.dt = .object)
  let catStats := categoricalCols.map (fun c => (c.name, (valueCounts c.presentStrs).take 10))
  let catStats :=
    match v.getCol "histologicalclass" with
    | some c =>
      if (catStats.lookup "histologicalclass").isNone then
        catStats ++ [("histologicalclass", (valueCounts (c.vals.filterMap
          (fun x => if x = .na then none else some (cellToStr x)))).take 10)]
      else catStats
    | none => catStats
  let cancerDist :=
    match v.getCol "cancer" with
    | some c =>
      (valueCounts (c.vals.filterMap (fun x => if x = .na then none else some (cellToStr x)))).map
        (fun x => (x.1, x.2, pct x.2 v.nrows))
    | none => []
  let ageStats ←
    match v.getCol "age" with
    | none => pure none
    | some c =>
      match listMeanQ c.presentNums, quantileQ c.presentNums (1/2),
            c.presentNums.min?, c.presentNums.max? with
      | some m, some md, some lo, some hi =>
        pure (some { meanAge := m, medianAge := md, ageMin := pyInt lo, ageMax := pyInt hi
                     ageGroups := getAgeGroups v })
      | _, _, _, _ => throw "ValueError: cannot convert float NaN to integer"
  pure
    { totalRecords := v.nrows
      filteredRecords := v.nrows
      originalRecords := original
      numericStats := numericCols.map (fun c => (c.name, numStatsOf c))
      categoricalStats := catStats
      cancerDistribution := cancerDist
      ageStatistics := ageStats
      message := none }

/-- `DataProcessor.get_summary_statistics` on a loaded frame: apply the
filters when a specification is supplied (`if filters` is false for `None`
and for an empty dict), return the empty summary for an empty view, and
otherwise the computed summary. -/
def getSummaryStatistics (df : DataFrame) (filters : Option FilterSpec) :
    Except String Summary := do
  let v ← match filters with
    | some f => applyFilters df f
    | none => pure df
  if v.nrows = 0 then pure (emptySummary df.nrows)
  else summarize v df.nrows

/-! ## Correlation engine (`get_correlations`, `_correlation_strength`)

Correlations are held as the triple `(sxy, sxx, syy)` of centered sums, from
which the real correlation value is `sxy / sqrt (sxx * syy)`.  All three
supported methods (Pearson, Spearman on average ranks, Kendall tau-b)
produce a triple of this shape, with an undefined (NaN) correlation exactly
when a factor of the denominator vanishes.  Keeping the triple rational
keeps the construction computable; the real value and the strength tag are
derived fields. -/

/-- The three accepted correlation methods. -/
inductive CorrMethod where
  | pearson
  | spearman
  | kendall
deriving DecidableEq, Repr

/-- Pairwise-complete observations of two columns (pandas `corr` drops a row
for a pair when either side is missing). -/
def pairedNums (xs ys : List Cell) : List (ℚ × ℚ) :=
  (xs.zip ys).filterMap
    (fun ab => match ab with | (.num p, .num q) => some (p, q) | _ => none)

/-- Centered second-moment sums of a paired sample; `none` models a NaN
correlation: no observations, or a constant column (zero variance). -/
def corrSums (ps : List (ℚ × ℚ)) : Option (ℚ × ℚ × ℚ) :=
  match listMeanQ (ps.map (·.1)), listMeanQ (ps.map (·.2)) with
  | some mx, some my =>
    let sxx := (ps.map (fun p => (p.1 - mx) ^ 2)).sum
    let syy := (ps.map (fun p => (p.2 - my) ^ 2)).sum
    let sxy := (ps.map (fun p => (p.1 - mx) * (p.2 - my))).sum
    if sxx = 0 ∨ syy = 0 then none else some (sxy, sxx, syy)
  | _, _ => none

/-- Average rank (1-based, ties share the mean rank), as used by the
Spearman method. -/
def avgRank (l : List ℚ) (x : ℚ) : ℚ :=
  (l.countP (fun y => decide (y < x)) : ℚ) + ((l.countP (fun y => y == x) : ℚ) + 1) / 2

/-- All unordered pairs of a list (each `i < j` pair once). -/
def pairsOf {α : Type} : List α → List (α × α)
  | [] => []
  | a :: t => t.map (fun b => (a, b)) ++ pairsOf t

/-- The sign of a rational, as a rational. -/
def signQ (q : ℚ) : ℚ := if 0 < q then 1 else if q < 0 then -1 else 0

/-- Kendall tau-b sums: `sxy` is the concordant-minus-discordant count, and
the denominator factors are the numbers of pairs not tied in x resp. y. -/
def kendallSums (ps : List (ℚ × ℚ)) : Option (ℚ × ℚ × ℚ) :=
  let prs := pairsOf ps
  let num := (prs.map (fun ab => signQ ((ab.1.1 - ab.2.1) * (ab.1.2 - ab.2.2)))).sum
  let sx : ℚ := ((prs.length - prs.countP (fun ab => ab.1.1 == ab.2.1) : ℕ) : ℚ)
  let sy : ℚ := ((prs.length - prs.countP (fun ab => ab.1.2 == ab.2.2) : ℕ) : ℚ)
  if sx = 0 ∨ sy = 0 then none else some (num, sx, sy)

/-- The `(sxy, sxx, syy)` sums of one method on two columns. -/
def methodSums (m : CorrMethod) (xs ys : List Cell) : Option (ℚ × ℚ × ℚ) :=
  let ps := pairedNums xs ys
  match m with
  | .pearson => corrSums ps
  | .spearman =>
    corrSums (ps.map (fun p => (avgRank (ps.map (·.1)) p.1, avgRank (ps.map (·.2)) p.2)))
  | .kendall => kendallSums ps

/-- The real correlation value of a sums triple. -/
noncomputable def corrOfSums (t : ℚ × ℚ × ℚ) : ℝ :=
  (t.1 : ℝ) / Real.sqrt ((t.2.1 : ℝ) * (t.2.2 : ℝ))

/-- `DataProcessor._correlation_strength`. -/
noncomputable def correlationStrength (absCorr : ℝ) : String :=
  if 0.7 ≤ absCorr then "strong"
  else if 0.5 ≤ absCorr then "moderate"
  else if 0.3 ≤ absCorr then "weak"
  else "very weak"

/-- One entry of the `significant_correlations` list.  The squared
correlation `rSq` is stored to drive the (computable, total) sort order;
the real value and the strength tag are the derived functions below. -/
structure CorrPair where
  variable1 : String
  variable2 : String
  sxy : ℚ
  sxx : ℚ
  syy : ℚ
  rSq : ℚ
deriving DecidableEq, Repr

/-- The float stored under `"correlation"`. -/
noncomputable def CorrPair.correlation (e : CorrPair) : ℝ := corrOfSums (e.sxy, e.sxx, e.syy)

/-- The tag stored under `"strength"`. -/
noncomputable def CorrPair.strengthTag (e : CorrPair) : String :=
  correlationStrength |e.correlation|

/-- The sort relation of the significant list: descending squared
correlation (for the pairs in the list this is descending absolute
correlation, proved in the theorems below). -/
def corrGE (a b : CorrPair) : Prop := b.rSq ≤ a.rSq

instance : DecidableRel corrGE := fun a b => by unfold corrGE; infer_instance

instance : IsTotal CorrPair corrGE := ⟨fun a b => le_total b.rSq a.rSq⟩

instance : IsTrans CorrPair corrGE := ⟨fun _ _ _ h1 h2 => le_trans h2 h1⟩

/-- The numeric sub-frame columns (`select_dtypes(include=[np.number])`). -/
def DataFrame.numericCols (df : DataFrame) : List Col :=
  df.cols.filter (fun c => c.dt = .numeric)

/-- The payload of a successful `get_correlations` call. -/
structure CorrResult where
  method : CorrMethod
  matrix : List (String × List (String × (ℚ × ℚ × ℚ)))
  significant : List CorrPair
deriving DecidableEq, Repr

/-- The unsorted significant list: one entry per unordered pair of numeric
columns (`i < j`), kept when the correlation is defined and its square
exceeds `0.3 ** 2` (the rational form of `abs(corr) > 0.3`). -/
def significantRaw (m : CorrMethod) (nc : List Col) : List CorrPair :=
  nc.enum.flatMap (fun ic =>
    (nc.enum.filter (fun jc => ic.1 < jc.1)).filterMap (fun jc =>
      match methodSums m ic.2.vals jc.2.vals with
      | some t =>
        if t.1 ^ 2 / (t.2.1 * t.2.2) > 9 / 100 then
          some ⟨ic.2.name, jc.2.name, t.1, t.2.1, t.2.2, t.1 ^ 2 / (t.2.1 * t.2.2)⟩
        else none
      | none => none))

/-- `DataProcessor.get_correlations`: a structured failure exactly when the
numeric sub-frame is empty (`numeric_df.empty`: no numeric columns or no
rows); otherwise the pairwise matrix with undefined (NaN) cells omitted and
the significant pairs sorted by descending absolute correlation. -/
def getCorrelations (df : DataFrame) (m : CorrMethod) : SvcResult CorrResult :=
  let nc := df.numericCols
  if nc.isEmpty || df.nrows == 0 then .failure "No numeric columns found"
  else
    .success
      { method := m
        matrix := nc.map (fun cj =>
          (cj.name, nc.filterMap (fun ci =>
            (methodSums m ci.vals cj.vals).map (fun t => (ci.name, t)))))
        significant := (significantRaw m nc).insertionSort corrGE }

/-! ## Dynamic correlations (`get_dynamic_correlations`) -/

/-- One entry of the column analysis produced by the structure analyzer. -/
structure ColInfo where
  columnName : String
  detectedType : String
  isTargetVariable : Bool := false
deriving DecidableEq, Repr

/-- `DataProcessor.get_dynamic_correlations`.  After the numeric-column
check the source executes `self.get_correlations(method=method,
filters=filters)`, but `get_correlations` accepts no `filters` keyword, so
the call raises a `TypeError` (the `Except.error` case); the returned
dictionaries of the happy path are unreachable. -/
def getDynamicCorrelations (df : DataFrame) (columnAnalysis : List ColInfo)
    (m : CorrMethod) (filters : Option FilterSpec) :
    Except String (SvcResult CorrResult) := do
  let dfA ← match filters with
    | some f => applyFilters df f
    | none => pure df
  let numericNames := columnAnalysis.filterMap (fun ci =>
    if (ci.detectedType = "numeric_continuous" ∨ ci.detectedType = "numeric_discrete")
        ∧ dfA.hasCol ci.columnName then
      some ci.columnName
    else none)
  if numericNames.length < 2 then
    pure (.failure "Not enough numeric columns for correlation analysis")
  else
    throw "TypeError: get_correlations() got an unexpected keyword argument filters"

/-! ## CSV loading (`load_from_bytes`)

The source tries the encodings `utf-8`, `latin-1`, `iso-8859-1` in order,
catching only `UnicodeDecodeError`; any other `read_csv` error escapes the
loop and becomes a structured failure in the outer handler.  `latin-1`
decodes every byte sequence, so the third attempt (`iso-8859-1` is an alias
of the same codec) and the "could not decode" branch are unreachable. -/

/-- A UTF-8 continuation byte. -/
def contB (b : Nat) : Bool := 0x80 ≤ b && b ≤ 0xBF

/-- Valid second byte of a three-byte sequence (rejects overlong encodings
and surrogates, as Python strict UTF-8 decoding does). -/
def validSecond3 (b0 b1 : Nat) : Bool :=
  if b0 = 0xE0 then 0xA0 ≤ b1 && b1 ≤ 0xBF
  else if b0 = 0xED then 0x80 ≤ b1 && b1 ≤ 0x9F
  else contB b1

/-- Valid second byte of a four-byte sequence (rejects overlong encodings
and code points beyond U+10FFFF). -/
def validSecond4 (b0 b1 : Nat) : Bool :=
  if b0 = 0xF0 then 0x90 ≤ b1 && b1 ≤ 0xBF
  else if b0 = 0xF4 then 0x80 ≤ b1 && b1 ≤ 0x8F
  else contB b1

/-- Strict UTF-8 decoding of a byte list into code points; `none` models a
`UnicodeDecodeError`. -/
def utf8Decode : List Nat → Option (List Nat)
  | [] => some []
  | b0 :: rest =>
    if b0 < 0x80 then (utf8Decode rest).map (b0 :: ·)
    else if 0xC2 ≤ b0 && b0 ≤ 0xDF then
      match rest with
      | b1 :: rest2 =>
        if contB b1 then
          (utf8Decode rest2).map (((b0 - 0xC0) * 64 + (b1 - 0x80)) :: ·)
        else none
      | [] => none
    else if 0xE0 ≤ b0 && b0 ≤ 0xEF then
      match rest with
      | b1 :: b2 :: rest3 =>
        if validSecond3 b0 b1 && contB b2 then
          (utf8Decode rest3).map
            (((b0 - 0xE0) * 4096 + (b1 - 0x80) * 64 + (b2 - 0x80)) :: ·)
        else none
      | _ => none
    else if 0xF0 ≤ b0 && b0 ≤ 0xF4 then
      match rest with
      | b1 :: b2 :: b3 :: rest4 =>
        if validSecond4 b0 b1 && contB b2 && contB b3 then
          (utf8Decode rest4).map
            (((b0 - 0xF0) * 262144 + (b1 - 0x80) * 4096 + (b2 - 0x80) * 64 + (b3 - 0x80)) :: ·)
        else none
      | _ => none
    else none

/-- Latin-1 decoding: every byte is its own code point; it never fails. -/
def latin1Decode (bs : List Nat) : List Nat := bs

/-- Code points to a Lean string. -/
def cpsToString (l : List Nat) : String := ⟨l.map Char.ofNat⟩

/-- Split a code-point list on a separator. -/
def splitOnCp (sep : Nat) (l : List Nat) : List (List Nat) :=
  l.foldr
    (fun c acc =>
      match acc with
      | cur :: done => if c = sep then [] :: cur :: done else (c :: cur) :: done
      | [] => [[c]])
    [[]]

/-- Drop one trailing carriage return of a line. -/
def stripCR (l : List Nat) : List Nat :=
  if l.getLast? = some 13 then l.dropLast else l

/-- Split a character list on a separator character. -/
def splitSep (sep : Char) (l : List Char) : List (List Char) :=
  l.foldr
    (fun c acc =>
      match acc with
      | cur :: done => if c = sep then [] :: cur :: done else (c :: cur) :: done
      | [] => [[c]])
    [[]]

/-- Value of a digit string. -/
def digitsVal (l : List Char) : Nat :=
  l.foldl (fun acc c => acc * 10 + (c.toNat - 48)) 0

/-- Parse an unsigned decimal mantissa (`123`, `1.5`, `.5`, `5.`). -/
def parseMantissa (l : List Char) : Option ℚ :=
  match splitSep '.' l with
  | [ip] => if ip ≠ [] ∧ ip.all Char.isDigit then some ((digitsVal ip : ℚ)) else none
  | [ip, fp] =>
    if (ip ≠ [] ∨ fp ≠ []) ∧ ip.all Char.isDigit ∧ fp.all Char.isDigit then
      some ((digitsVal ip : ℚ) + (digitsVal fp : ℚ) / (10 : ℚ) ^ fp.length)
    else none
  | _ => none

/-- Parse an optionally signed exponent digit string. -/
def parseExpDigits : List Char → Option Int
  | '-' :: ds => if ds ≠ [] ∧ ds.all Char.isDigit then some (-(digitsVal ds : Int)) else none
  | '+' :: ds => if ds ≠ [] ∧ ds.all Char.isDigit then some ((digitsVal ds : Int)) else none
  | ds => if ds ≠ [] ∧ ds.all Char.isDigit then some ((digitsVal ds : Int)) else none

/-- Mantissa with optional `e`/`E` exponent. -/
def parseMantExp (l : List Char) : Option ℚ :=
  match l.findIdx? (fun c => c == 'e' || c == 'E') with
  | none => parseMantissa l
  | some i =>
    match parseMantissa (l.take i), parseExpDigits (l.drop (i + 1)) with
    | some m, some e =>
      some (if 0 ≤ e then m * (10 : ℚ) ^ e.toNat else m / (10 : ℚ) ^ (-e).toNat)
    | _, _ => none

/-- Parse a Python float/int literal (optional sign, decimal mantissa,
optional exponent, surrounding whitespace), the shape accepted by
`pd.to_numeric` and by the CSV numeric-dtype inference. -/
def parsePyNumber (s : String) : Option ℚ :=
  match (pyStrip s).data with
  | '-' :: rest => (parseMantExp rest).map (fun q => -q)
  | '+' :: rest => parseMantExp rest
  | rest => parseMantExp rest

/-- The default `na_values` tokens of the pandas CSV reader (the subset the
datasets can contain). -/
def csvNaTokens : List String := ["", "nan", "NaN", "NA", "N/A", "n/a", "null", "NULL", "None"]

/-- Build one column of the parsed CSV from its name and raw field texts:
numeric dtype when every non-missing field parses as a number, object dtype
otherwise (cells then keep the raw text). -/
def buildCsvCol (name : String) (fields : List String) : Col :=
  let isNa : String → Bool := fun s => pyStrip s ∈ csvNaTokens
  if fields.all (fun s => isNa s || (parsePyNumber s).isSome) then
    ⟨name, .numeric, fields.map (fun s =>
      if isNa s then .na else match parsePyNumber s with | some q => .num q | none => .na)⟩
  else
    ⟨name, .object, fields.map (fun s => if isNa s then .na else .str s)⟩

/-- Model of `pd.read_csv` on decoded code points: split lines (skipping
blank lines), split fields on commas, first line is the header; raises
`EmptyDataError` on no content and `ParserError` on a row with more fields
than the header; shorter rows are padded with missing values. -/
def parseCsv (cps : List Nat) : Except String DataFrame := do
  let lines := ((splitOnCp 10 cps).map stripCR).filter (fun l => !l.isEmpty)
  match lines with
  | [] => throw "EmptyDataError: No columns to parse from file"
  | header :: body =>
    let names := (splitOnCp 44 header).map cpsToString
    let rowsRaw := body.map (fun ln => (splitOnCp 44 ln).map cpsToString)
    if rowsRaw.any (fun r => names.length < r.length) then
      throw "ParserError: too many fields in a data row"
    else
      let rows := rowsRaw.map (fun r => r ++ List.replicate (names.length - r.length) "")
      pure ⟨names.enum.map (fun jn => buildCsvCol jn.2 (rows.map (fun r => r.getD jn.1 "")))⟩

/-- The success payload of `load_from_bytes`. -/
structure LoadInfo where
  filename : String
  rows : Nat
  columns : Nat
  columnNames : List String
  dataTypes : List (String × Dtype)
deriving DecidableEq, Repr

/-- The summary dictionary built from a freshly loaded frame. -/
def loadInfoOf (filename : String) (f : DataFrame) : LoadInfo :=
  ⟨filename, f.nrows, f.cols.length, f.colNames, f.cols.map (fun c => (c.name, c.dt))⟩

/-- `DataProcessor.load_from_bytes` as a transition on the stored frame:
decode with UTF-8 first, fall back to Latin-1 when UTF-8 raises
`UnicodeDecodeError` (Latin-1 always decodes, so the encoding loop never
exhausts), parse, and either store the new frame and return its summary or
leave the state unchanged and return the structured failure. -/
def loadFromBytes (st : Option DataFrame) (bytes : List Nat) (filename : String) :
    Option DataFrame × SvcResult LoadInfo :=
  let parsed : Except String DataFrame :=
    match utf8Decode bytes with
    | some cps => parseCsv cps
    | none => parseCsv (latin1Decode bytes)
  match parsed with
  | .ok f => (some f, .success (loadInfoOf filename f))
  | .error e => (st, .failure e)

/-! ## ML engine (`MLModelsService.prepare_data`, `predict_single`)

The fitted weights of a trained logistic regression and the fitted scaler
statistics are outcomes of numeric optimisation on the shuffled training
partition; they are universally quantified data in the theorems.  The
probability of the positive class exposed by the model is the logistic
sigmoid of the decision value, which is what bounds it inside `[0, 1]`. -/

/-- `y.map({'Yes': 1, 'No': 0})`: every other value (including numbers and
missing cells) becomes NaN, which `prepare_data` then rejects. -/
def toTarget : Cell → Option Nat
  | .str "Yes" => some 1
  | .str "No" => some 0
  | _ => none

/-- The fixed list of semantically numeric columns coerced by
`prepare_data`. -/
def coerceColumns : List String := ["menopause", "agefirst", "children", "exercise"]

/-- `replace({'No': '0', 'no': '0', 'NO': '0'})` then
`pd.to_numeric(errors='coerce')` on one cell of an object column. -/
def coerceNumCell : Cell → Cell
  | .na => .na
  | .num q => .num q
  | .str s =>
    let s1 := if s = "No" ∨ s = "no" ∨ s = "NO" then "0" else s
    match parsePyNumber s1 with
    | some q => .num q
    | none => .na

/-- Column coercion: a numeric column is unchanged (the string replacements
match nothing); an object column becomes numeric with unparseable entries
missing. -/
def coerceCol (c : Col) : Col :=
  if c.dt = .numeric then c else ⟨c.name, .numeric, c.vals.map coerceNumCell⟩

/-- Identifier and year columns excluded from the feature set. -/
def irrelevantFeatures : List String := ["id", "year"]

/-- `X.fillna(X.mean())` on one column (no change when the mean itself is
NaN). -/
def fillMeanCol (c : Col) : Col :=
  match listMeanQ c.presentNums with
  | some m => { c with vals := c.vals.map (fun v => if v = .na then .num m else v) }
  | none => c

/-- The preparation state stored by a successful `prepare_data`:
`self.feature_names`, `self.feature_means` (pandas `X.mean().to_dict()`,
whose value is NaN for an all-missing column, modelled by `none`), the
imputed feature matrix and the 0/1 target vector.  The returned summary
dictionary (`n_samples`, class distribution, ...) is derived data and not
needed by any claim. -/
structure PrepData where
  featureNames : List String
  featureMeans : List (String × Option ℚ)
  xCols : List Col
  y : List Nat
deriving DecidableEq, Repr

/-- `MLModelsService.prepare_data`: check the target column, map the target
to 0/1 and reject missing values, coerce the fixed column list, keep the
numeric features except `id`/`year`, mean-impute, and store the feature
names and means.  The final stratified 80/20 split is fitted data; its
failure conditions are modelled from the library behavior (sklearn raises
`ValueError` when the least populated class has fewer than two members or a
partition is smaller than the number of classes), which the surrounding
try/except turns into a structured failure. -/
def prepareData (df : DataFrame) (targetColumn : String) : SvcResult PrepData :=
  match df.getCol targetColumn with
  | none => .failure "Target column not found in dataset"
  | some tc =>
    let yOpt := tc.vals.map toTarget
    if yOpt.any (·.isNone) then .failure "Target column contains missing values"
    else
      let y := yOpt.map (fun o => o.getD 0)
      let x0 := df.cols.filter (fun c => !(c.name == targetColumn))
      let x1 := x0.map (fun c => if c.name ∈ coerceColumns then coerceCol c else c)
      let feats := (x1.filter (fun c => c.dt = .numeric)).filter
        (fun c => !(decide (c.name ∈ irrelevantFeatures)))
      let xF := feats.map fillMeanCol
      let names := feats.map (·.name)
      let means := xF.map (fun c => (c.name, listMeanQ c.presentNums))
      let n := y.length
      let nTest := (n + 4) / 5
      let k := (dedupFirst y).length
      if n = 0 ∨ (dedupFirst y).any (fun v => y.count v < 2) ∨ nTest < k ∨ n - nTest < k then
        .failure "train_test_split raised ValueError"
      else .success ⟨names, means, xF, y⟩

/-- A fitted linear classifier with probability output (the logistic
regression slot of `self.models`): coefficients and intercept in the scaled
feature space.  Fitted floats are rationals. -/
structure LinModel where
  weights : List ℚ
  intercept : ℚ
deriving DecidableEq, Repr

/-- The `MLModelsService` state read by `predict_single`. -/
structure MLState where
  models : List (String × LinModel)
  scalerMean : Option (List ℚ)
  scalerScale : List ℚ
  featureNames : Option (List String)
  featureMeans : List (String × Option ℚ)
deriving DecidableEq, Repr

/-- The logistic sigmoid: the probability of class 1 exposed by
`predict_proba` for a logistic regression. -/
noncomputable def sigmoid (z : ℝ) : ℝ := 1 / (1 + Real.exp (-z))

/-- The single-record feature row of `predict_single`: input keys outside
the training features are discarded; a feature absent from the input is
filled with the stored training-time mean when one is available, with the
stored NaN when the mean itself is NaN, and with zero only when the means
dictionary is empty or has no entry for the feature. -/
def imputeRow (names : List String) (means : List (String × Option ℚ))
    (input : List (String × ℚ)) : List (Option ℚ) :=
  names.map (fun f =>
    match input.lookup f with
    | some v => some v
    | none =>
      if means.isEmpty then some 0
      else
        match means.lookup f with
        | some mo => mo
        | none => some 0)

/-- `_get_interpretation`. -/
def interpretationOf (riskLevel : String) : String :=
  if riskLevel = "Bajo" then
    "La probabilidad de cáncer de mama es baja según los factores de riesgo proporcionados. Se recomienda mantener controles médicos regulares y hábitos de vida saludables."
  else if riskLevel = "Moderado" then
    "La probabilidad de cáncer de mama es moderada. Se recomienda consultar con un especialista para evaluación adicional y considerar estudios complementarios según criterio médico."
  else
    "La probabilidad de cáncer de mama es alta según los factores de riesgo analizados. Se recomienda consulta urgente con un especialista en mastología para evaluación detallada y estudios diagnósticos complementarios."

/-- The outcome of `predict_single`: the structured failure dictionary or
the prediction payload. -/
inductive PredictOutcome where
  | fail (error : String)
  | ok (prediction : Nat) (probability : ℝ) (riskLevel : String) (interpretation : String)

/-- `MLModelsService.predict_single`: check model, scaler and feature
names; build the feature row with training-mean imputation; scale with the
stored scaler statistics; predict.  A NaN reaching the model raises a
`ValueError` inside the try block, returned as the structured failure; the
same happens on a feature-count mismatch with the fitted scaler. -/
noncomputable def predictSingle (st : MLState) (input : List (String × ℚ))
    (modelName : String) : PredictOutcome :=
  match st.models.lookup modelName with
  | none => .fail "Model not trained yet. Please train models first."
  | some mdl =>
    match st.scalerMean with
    | none => .fail "Scaler not fitted. Please prepare data and train models first."
    | some mu =>
      match st.featureNames with
      | none => .fail "Feature names not available. Please train models first."
      | some names =>
        let row := imputeRow names st.featureMeans input
        if row.any (·.isNone) then
          .fail "Error making prediction: Input contains NaN"
        else
          let xs := row.map (fun o => o.getD 0)
          if xs.length ≠ mu.length ∨ mu.length ≠ st.scalerScale.length
              ∨ mdl.weights.length ≠ xs.length then
            .fail "Error making prediction: feature shape mismatch"
          else
            let scaled := (xs.zip (mu.zip st.scalerScale)).map
              (fun t => (t.1 - t.2.1) / t.2.2)
            let z := ((mdl.weights.zip scaled).map (fun p => p.1 * p.2)).sum + mdl.intercept
            let p := sigmoid (z : ℝ)
            let risk := if p < 0.3 then "Bajo" else if p < 0.6 then "Moderado" else "Alto"
            .ok (if 0 ≤ z then 1 else 0) p risk (interpretationOf risk)

/-! # Theorems

General lemmas about the frame model, followed by one theorem per claim
(with its witness or counterexample where required). -/

theorem nrows_map_cols (df : DataFrame) (g : Col → Col)
    (h : ∀ c, (g c).vals.length = c.vals.length) :
    DataFrame.nrows ⟨df.cols.map g⟩ = df.nrows := by
  cases hc : df.cols with
  | nil => simp [DataFrame.nrows, hc]
  | cons c t => simp [DataFrame.nrows, hc, h]

theorem imputeNumCol_name (c : Col) : ((imputeNumCol c).1).name = c.name := by
  unfold imputeNumCol
  split
  · cases h : listMeanQ c.presentNums <;> simp
  · rfl

theorem imputeNumCol_dt (c : Col) : ((imputeNumCol c).1).dt = c.dt := by
  unfold imputeNumCol
  split
  · cases h : listMeanQ c.presentNums <;> simp
  · rfl

theorem imputeNumCol_len (c : Col) : ((imputeNumCol c).1).vals.length = c.vals.length := by
  unfold imputeNumCol
  split
  · cases h : listMeanQ c.presentNums <;> simp
  · rfl

theorem cleanTextCol_name (c : Col) : ((cleanTextCol c).1).name = c.name := by
  unfold cleanTextCol
  dsimp only
  split
  · split <;> rfl
  · rfl

theorem cleanTextCol_dt (c : Col) : ((cleanTextCol c).1).dt = c.dt := by
  unfold cleanTextCol
  dsimp only
  split
  · split <;> rfl
  · rfl

theorem cleanTextCol_len (c : Col) : ((cleanTextCol c).1).vals.length = c.vals.length := by
  unfold cleanTextCol
  dsimp only
  split
  · split <;> simp
  · simp

theorem numStep_name (c : Col) : ((numStep c).1).name = c.name := by
  unfold numStep; split
  · exact imputeNumCol_name c
  · rfl

theorem numStep_dt (c : Col) : ((numStep c).1).dt = c.dt := by
  unfold numStep; split
  · exact imputeNumCol_dt c
  · rfl

theorem numStep_len (c : Col) : ((numStep c).1).vals.length = c.vals.length := by
  unfold numStep; split
  · exact imputeNumCol_len c
  · rfl

theorem catStep_name (c : Col) : ((catStep c).1).name = c.name := by
  unfold catStep; split
  · exact cleanTextCol_name c
  · rfl

theorem catStep_dt (c : Col) : ((catStep c).1).dt = c.dt := by
  unfold catStep; split
  · exact cleanTextCol_dt c
  · rfl

theorem catStep_len (c : Col) : ((catStep c).1).vals.length = c.vals.length := by
  unfold catStep; split
  · exact cleanTextCol_len c
  · rfl

theorem colNames_selectRows (df : DataFrame) (idxs : List Nat) :
    (df.selectRows idxs).colNames = df.colNames := by
  simp [DataFrame.selectRows, DataFrame.colNames]

theorem nrows_selectRows (df : DataFrame) (idxs : List Nat) (h : df.cols ≠ []) :
    (df.selectRows idxs).nrows = idxs.length := by
  cases hc : df.cols with
  | nil => exact absurd hc h
  | cons c t => simp [DataFrame.selectRows, DataFrame.nrows, hc]

theorem dupKeepIdx_length_le (df : DataFrame) : df.dupKeepIdx.length ≤ df.nrows := by
  calc df.dupKeepIdx.length ≤ (List.range df.nrows).length := List.length_filter_le _ _
    _ = df.nrows := List.length_range _

theorem cleanData_fst (df : DataFrame) :
    (cleanData df).1
      = ⟨((df.dropDuplicates).cols.map (fun c => (numStep c).1)).map (fun c => (catStep c).1)⟩ :=
  rfl

theorem cleanData_finalRows (df : DataFrame) :
    (cleanData df).2.finalRows = (cleanData df).1.nrows := rfl

theorem cleanData_initialRows (df : DataFrame) :
    (cleanData df).2.initialRows = df.nrows := rfl

theorem cleanData_dups (df : DataFrame) :
    (cleanData df).2.duplicatesRemoved = df.duplicatedCount := rfl

theorem cleanData_missingBefore (df : DataFrame) :
    (cleanData df).2.missingBefore = missingReport df := rfl

theorem cleanData_missingAfter (df : DataFrame) :
    (cleanData df).2.missingAfter = missingReport (cleanData df).1 := rfl

theorem cleanData_imputation (df : DataFrame) :
    (cleanData df).2.imputation
      = (df.dropDuplicates).cols.filterMap (fun c => (numStep c).2)
        ++ ((df.dropDuplicates).cols.map (fun c => (numStep c).1)).filterMap
            (fun c => (catStep c).2) := rfl

theorem cleanData_nrows (df : DataFrame) :
    (cleanData df).1.nrows = (df.dropDuplicates).nrows := by
  rw [cleanData_fst, List.map_map]
  exact nrows_map_cols (df.dropDuplicates)
    (fun c => (catStep (numStep c).1).1)
    (fun c => (catStep_len _).trans (numStep_len c))

/-- Claim C9.  `clean_data` preserves the set and order of column names, the
final row count is the initial count minus the removed duplicates, and the
imputation and text-normalization passes change no row counts (the final
frame has exactly the rows of the deduplicated frame). -/
theorem clean_data_shape (df : DataFrame) :
    ((cleanData df).1).colNames = df.colNames
    ∧ (cleanData df).2.finalRows = (cleanData df).2.initialRows - (cleanData df).2.duplicatesRemoved
    ∧ (cleanData df).1.nrows = (df.dropDuplicates).nrows := by
  refine ⟨?_, ?_, cleanData_nrows df⟩
  · rw [cleanData_fst]
    unfold DataFrame.colNames
    rw [List.map_map, List.map_map]
    have h1 : ∀ c ∈ (df.dropDuplicates).cols,
        (((fun x : Col => x.name) ∘ fun c => (catStep c).1) ∘ fun c => (numStep c).1) c
          = c.name := by
      intro c _
      show ((catStep (numStep c).1).1).name = c.name
      exact (catStep_name _).trans (numStep_name c)
    rw [List.map_congr_left h1]
    exact colNames_selectRows df _
  · rw [cleanData_finalRows, cleanData_initialRows, cleanData_dups, cleanData_nrows]
    unfold DataFrame.duplicatedCount
    cases hc : df.cols with
    | nil =>
      have hk : df.dupKeepIdx = [] := by
        unfold DataFrame.dupKeepIdx DataFrame.nrows
        rw [hc]
        rfl
      simp [DataFrame.dropDuplicates, DataFrame.selectRows, DataFrame.nrows, hc, hk]
    | cons c t =>
      have hne : df.cols ≠ [] := by rw [hc]; exact List.cons_ne_nil _ _
      rw [show (df.dropDuplicates) = df.selectRows df.dupKeepIdx from rfl,
        nrows_selectRows df _ hne]
      exact (Nat.sub_sub_self (dupKeepIdx_length_le df)).symm

/-- Claim C2, counterexample.  On the frame with columns `a = [1, 1]` and
`b = [NaN, 2]`, the first `clean_data` removes no duplicates and imputes the
missing `b` with the mean 2, which makes the two rows identical; the second
run therefore reports a duplicate count of 1, not 0. -/
theorem clean_data_second_run_duplicates :
    ((cleanData ⟨[⟨"a", .numeric, [.num 1, .num 1]⟩,
                  ⟨"b", .numeric, [.na, .num 2]⟩]⟩).2).duplicatesRemoved = 0
    ∧ ((cleanData (cleanData ⟨[⟨"a", .numeric, [.num 1, .num 1]⟩,
                  ⟨"b", .numeric, [.na, .num 2]⟩]⟩).1).2).duplicatesRemoved = 1 := by
  decide

/-- Claim C4, counterexample.  `pd.cut(..., right=False)` makes every bucket
right-open, including the top one, so an age of exactly 100 falls in no
bucket: the `60+` count of the one-row frame with age 100 is 0, not 1. -/
theorem age_100_not_counted :
    cutLabel (.num 100) = none
    ∧ (getAgeGroups ⟨[⟨"age", .numeric, [.num 100]⟩]⟩).lookup "60+" = some 0 := by
  decide

/-- Claim C5, counterexample.  The Yes/No normalization is an exact-match
dictionary, not a case-insensitive comparison: the affirmative spelling
`"SI"` (upper-case of the listed `"si"`) is left unchanged by `clean_data`
instead of becoming `"Yes"`. -/
theorem uppercase_si_not_normalized :
    textNorm (.str "SI") = .str "SI"
    ∧ ((cleanData ⟨[⟨"resp", .object, [.str "SI", .str "x"]⟩]⟩).1).cols
        = [⟨"resp", .object, [.str "SI", .str "x"]⟩]
    ∧ Cell.str "SI" ≠ Cell.str "Yes" := by
  decide

/-- Claim C3, counterexample.  `get_correlations` only fails when the
numeric sub-frame is empty; a frame with exactly one numeric column (fewer
than 2) succeeds instead of returning the claimed structured error. -/
theorem one_numeric_column_succeeds :
    (⟨[⟨"a", .numeric, [.num 1, .num 2]⟩]⟩ : DataFrame).numericCols.length = 1
    ∧ (getCorrelations ⟨[⟨"a", .numeric, [.num 1, .num 2]⟩]⟩ .pearson).isSuccess = true := by
  decide

/-- Claim C10.  With two recognized numeric columns present the source
reaches `self.get_correlations(method=method, filters=filters)`, but
`get_correlations` takes no `filters` keyword, so every such call raises a
`TypeError` instead of returning the documented result dictionary. -/
theorem dynamic_correlations_type_error :
    getDynamicCorrelations
      ⟨[⟨"a", .numeric, [.num 1, .num 2]⟩, ⟨"b", .numeric, [.num 3, .num 5]⟩]⟩
      [⟨"a", "numeric_continuous", false⟩, ⟨"b", "numeric_continuous", false⟩]
      .pearson none
    = .error "TypeError: get_correlations() got an unexpected keyword argument filters" := by
  rfl

/-- Claim C6.  `load_from_bytes` attempts UTF-8 first and falls back to
Latin-1 exactly when UTF-8 raises a decode error (Latin-1 decodes every
byte sequence, so the chain of supported encodings never fails to produce a
text and any remaining failure is a structured `{success: false}` result,
never an exception); on failure the stored frame is untouched, and on
success the returned row count, column count, column names and per-column
dtypes are those of the newly loaded frame. -/
theorem load_from_bytes_spec (st : Option DataFrame) (bytes : List Nat) (filename : String) :
    ((∃ e, (loadFromBytes st bytes filename).2 = .failure e) →
        (loadFromBytes st bytes filename).1 = st)
    ∧ (∀ info, (loadFromBytes st bytes filename).2 = .success info →
        ∃ f, (loadFromBytes st bytes filename).1 = some f
          ∧ info = loadInfoOf filename f
          ∧ info.rows = f.nrows ∧ info.columns = f.cols.length
          ∧ info.columnNames = f.colNames
          ∧ info.dataTypes = f.cols.map (fun c => (c.name, c.dt)))
    ∧ (∀ cps, utf8Decode bytes = some cps →
        loadFromBytes st bytes filename
          = (match parseCsv cps with
             | .ok f => (some f, .success (loadInfoOf filename f))
             | .error e => (st, .failure e)))
    ∧ (utf8Decode bytes = none →
        loadFromBytes st bytes filename
          = (match parseCsv (latin1Decode bytes) with
             | .ok f => (some f, .success (loadInfoOf filename f))
             | .error e => (st, .failure e))) := by
  cases hdec : utf8Decode bytes with
  | some cps =>
    cases hp : parseCsv cps with
    | ok f =>
      have hL : loadFromBytes st bytes filename = (some f, .success (loadInfoOf filename f)) := by
        simp only [loadFromBytes, hdec, hp]
      refine ⟨?_, ?_, ?_, ?_⟩
      · rintro ⟨e, he⟩
        rw [hL] at he
        simp at he
      · intro info hinfo
        rw [hL] at hinfo
        simp only [SvcResult.success.injEq] at hinfo
        subst hinfo
        exact ⟨f, by rw [hL], rfl, rfl, rfl, rfl, rfl⟩
      · intro cps2 hcps2
        injection hcps2 with h
        subst h
        rw [hL, hp]
      · intro hno
        simp at hno
    | error e =>
      have hL : loadFromBytes st bytes filename = (st, .failure e) := by
        simp only [loadFromBytes, hdec, hp]
      refine ⟨?_, ?_, ?_, ?_⟩
      · intro _
        rw [hL]
      · intro info hinfo
        rw [hL] at hinfo
        simp at hinfo
      · intro cps2 hcps2
        injection hcps2 with h
        subst h
        rw [hL, hp]
      · intro hno
        simp at hno
  | none =>
    cases hp : parseCsv (latin1Decode bytes) with
    | ok f =>
      have hL : loadFromBytes st bytes filename = (some f, .success (loadInfoOf filename f)) := by
        simp only [loadFromBytes, hdec, hp]
      refine ⟨?_, ?_, ?_, ?_⟩
      · rintro ⟨e, he⟩
        rw [hL] at he
        simp at he
      · intro info hinfo
        rw [hL] at hinfo
        simp only [SvcResult.success.injEq] at hinfo
        subst hinfo
        exact ⟨f, by rw [hL], rfl, rfl, rfl, rfl, rfl⟩
      · intro cps2 hcps2
        simp at hcps2
      · intro _
        rw [hL]
    | error e =>
      have hL : loadFromBytes st bytes filename = (st, .failure e) := by
        simp only [loadFromBytes, hdec, hp]
      refine ⟨?_, ?_, ?_, ?_⟩
      · intro _
        rw [hL]
      · intro info hinfo
        rw [hL] at hinfo
        simp at hinfo
      · intro cps2 hcps2
        simp at hcps2
      · intro _
        rw [hL]

/-- Witness for the C6 theorem at a concrete small CSV upload. -/
theorem load_from_bytes_witness :
    ∃ f, (loadFromBytes none (("age,cancer\n40,Yes").data.map Char.toNat) "data.csv").1 = some f
      ∧ (⟨"data.csv", 1, 2, ["age", "cancer"],
            [("age", Dtype.numeric), ("cancer", Dtype.object)]⟩ : LoadInfo)
          = loadInfoOf "data.csv" f
      ∧ (⟨"data.csv", 1, 2, ["age", "cancer"],
            [("age", Dtype.numeric), ("cancer", Dtype.object)]⟩ : LoadInfo).rows = f.nrows
      ∧ (⟨"data.csv", 1, 2, ["age", "cancer"],
            [("age", Dtype.numeric), ("cancer", Dtype.object)]⟩ : LoadInfo).columns
          = f.cols.length
      ∧ (⟨"data.csv", 1, 2, ["age", "cancer"],
            [("age", Dtype.numeric), ("cancer", Dtype.object)]⟩ : LoadInfo).columnNames
          = f.colNames
      ∧ (⟨"data.csv", 1, 2, ["age", "cancer"],
            [("age", Dtype.numeric), ("cancer", Dtype.object)]⟩ : LoadInfo).dataTypes
          = f.cols.map (fun c => (c.name, c.dt)) :=
  (load_from_bytes_spec none (("age,cancer\n40,Yes").data.map Char.toNat) "data.csv").2.1
    ⟨"data.csv", 1, 2, ["age", "cancer"], [("age", Dtype.numeric), ("cancer", Dtype.object)]⟩
    (by decide)

/-! ### Row-selection algebra used by the filter theorems -/

theorem getD_map_lt {α β : Type} (l : List α) (g : α → β) (i : Nat) (d : β) (d0 : α)
    (h : i < l.length) : (l.map g).getD i d = g (l.getD i d0) := by
  rw [List.getD_eq_getElem?_getD, List.getD_eq_getElem?_getD, List.getElem?_map,
    List.getElem?_eq_getElem h]
  rfl

theorem getD_mem {α : Type} (l : List α) (i : Nat) (d : α) (h : i < l.length) :
    l.getD i d ∈ l := by
  rw [List.getD_eq_getElem?_getD, List.getElem?_eq_getElem h]
  exact List.getElem_mem _

theorem getCol_selectRows (df : DataFrame) (I : List Nat) (nm : String) :
    (df.selectRows I).getCol nm
      = (df.getCol nm).map (fun c => { c with vals := I.map (fun i => c.vals.getD i .na) }) := by
  unfold DataFrame.getCol DataFrame.selectRows
  rw [List.find?_map]
  rfl

theorem hasCol_selectRows (df : DataFrame) (I : List Nat) (nm : String) :
    (df.selectRows I).hasCol nm = df.hasCol nm := by
  unfold DataFrame.hasCol
  rw [getCol_selectRows]
  cases df.getCol nm <;> rfl

theorem map_getD_range {α : Type} (l : List α) (d : α) :
    (List.range l.length).map (fun i => l.getD i d) = l := by
  apply List.ext_getElem
  · simp
  · intro i h1 h2
    simp only [List.getElem_map, List.getElem_range]
    rw [List.getD_eq_getElem?_getD, List.getElem?_eq_getElem h2]
    rfl

theorem selectRows_range_self (df : DataFrame) (hwf : df.wf) :
    df.selectRows (List.range df.nrows) = df := by
  have h : df.cols.map
      (fun c => { c with vals := (List.range df.nrows).map (fun i => c.vals.getD i Cell.na) })
      = df.cols := by
    conv_rhs => rw [← List.map_id df.cols]
    apply List.map_congr_left
    intro c hc
    have hlen := hwf c hc
    rw [← hlen, map_getD_range]
    rfl
  unfold DataFrame.selectRows
  rw [h]

theorem selectRows_selectRows (df : DataFrame) (I J : List Nat)
    (hJ : ∀ j ∈ J, j < I.length) :
    (df.selectRows I).selectRows J = df.selectRows (J.map (fun j => I.getD j 0)) := by
  unfold DataFrame.selectRows
  simp only [List.map_map]
  congr 1
  apply List.map_congr_left
  intro c _
  simp only [Function.comp]
  congr 1
  apply List.map_congr_left
  intro j hj
  exact getD_map_lt I _ j Cell.na 0 (hJ j hj)

theorem range_filter_map_getD {α : Type} (l : List α) (r : α → Bool) (d : α) :
    ((List.range l.length).filter (fun j => r (l.getD j d))).map (fun j => l.getD j d)
      = l.filter r := by
  induction l with
  | nil => rfl
  | cons a t ih =>
    rw [List.length_cons, List.range_succ_eq_map]
    simp only [List.getD, List.get?_eq_getElem?] at ih ⊢
    by_cases hr : r a = true
    · simp [List.filter_cons, hr, List.filter_map, List.map_map, Function.comp_def,
        List.getElem?_cons_succ, List.getElem?_cons_zero, ih]
    · simp [List.filter_cons, hr, List.filter_map, List.map_map, Function.comp_def,
        List.getElem?_cons_succ, List.getElem?_cons_zero, ih]

theorem filterIdx_selectRows (df : DataFrame) (I : List Nat) (vs : List Cell) (p : Cell → Bool)
    (hne : df.cols ≠ []) :
    (df.selectRows I).filterIdx
        (fun j => p ((I.map (fun i => vs.getD i Cell.na)).getD j Cell.na))
      = df.selectRows (I.filter (fun i => p (vs.getD i Cell.na))) := by
  unfold DataFrame.filterIdx
  rw [nrows_selectRows df I hne]
  rw [selectRows_selectRows df I _ (by
    intro j hj
    exact List.mem_range.mp (List.mem_filter.mp hj).1)]
  congr 1
  have hcong : List.filter (fun j => p ((I.map (fun i => vs.getD i Cell.na)).getD j Cell.na))
        (List.range I.length)
      = List.filter (fun j => p (vs.getD (I.getD j 0) Cell.na)) (List.range I.length) := by
    apply List.filter_congr
    intro j hj
    rw [getD_map_lt I _ j Cell.na 0 (List.mem_range.mp hj)]
  rw [hcong]
  exact range_filter_map_getD I (fun i => p (vs.getD i Cell.na)) 0

theorem nrows_pos_cols_ne_nil (df : DataFrame) (nm : String) (c : Col)
    (hc : df.getCol nm = some c) : df.cols ≠ [] := by
  intro h
  unfold DataFrame.getCol at hc
  rw [h] at hc
  simp at hc

theorem filterByCol_sel (df : DataFrame) (I : List Nat) (nm : String) (p : Cell → Bool) :
    filterByCol (df.selectRows I) nm p
      = match df.getCol nm with
        | some c => df.selectRows (I.filter (fun i => p (c.vals.getD i Cell.na)))
        | none => df.selectRows I := by
  cases hc : df.getCol nm with
  | none =>
    unfold filterByCol
    rw [getCol_selectRows, hc]
    rfl
  | some c =>
    unfold filterByCol
    rw [getCol_selectRows, hc]
    simp only [Option.map_some']
    exact filterIdx_selectRows df I c.vals p (nrows_pos_cols_ne_nil df nm c hc)

theorem hasCol_exists (df : DataFrame) (nm : String) (h : df.hasCol nm = true) :
    ∃ c, df.getCol nm = some c := by
  unfold DataFrame.hasCol at h
  exact Option.isSome_iff_exists.mp h

theorem bool_ne_true {b : Bool} (h : b = false) : ¬(b = true) := by
  rw [h]
  exact Bool.false_ne_true

theorem stageAge_sel (df : DataFrame) (f : FilterSpec) (I : List Nat)
    (hsafe : ageFilterSafe df f = true) :
    stageAge f (df.selectRows I) = .ok (df.selectRows (I.filter (critAge df f))) := by
  unfold stageAge
  cases hmin : f.ageMin with
  | none =>
    have hcrit : critAge df f = fun _ => true := by
      funext i
      unfold critAge
      rw [hmin]
    rw [hcrit, List.filter_true]
  | some lo =>
    cases hmax : f.ageMax with
    | none =>
      have hcrit : critAge df f = fun _ => true := by
        funext i
        unfold critAge
        rw [hmin, hmax]
      rw [hcrit, List.filter_true]
    | some hi =>
      rw [getCol_selectRows]
      cases hc : df.getCol "age" with
      | none =>
        have hcrit : critAge df f = fun _ => true := by
          funext i
          unfold critAge
          rw [hmin, hmax, hc]
        rw [hcrit, List.filter_true]
        rfl
      | some c =>
        have hcrit : critAge df f = fun i => agePass lo hi (c.vals.getD i Cell.na) := by
          funext i
          unfold critAge
          rw [hmin, hmax, hc]
        unfold ageFilterSafe at hsafe
        rw [hmin, hmax, hc] at hsafe
        dsimp only at hsafe
        have hne := nrows_pos_cols_ne_nil df "age" c hc
        simp only [Option.map_some']
        have hcnd : ¬(({ c with vals := I.map (fun i => c.vals.getD i Cell.na) }).dt = Dtype.object
            ∧ (I.map (fun i => c.vals.getD i Cell.na)).any
                (fun v => match v with | .str _ => true | _ => false) = true) := by
          rintro ⟨hdt, hany⟩
          have hdt2 : c.dt = Dtype.object := hdt
          rw [List.any_eq_true] at hany
          obtain ⟨v, hv, hvs⟩ := hany
          rw [List.mem_map] at hv
          obtain ⟨i, _, hvi⟩ := hv
          obtain ⟨s, rfl⟩ : ∃ s, v = Cell.str s := by
            cases v with
            | str s => exact ⟨s, rfl⟩
            | num q => simp at hvs
            | na => simp at hvs
          have hlt : i < c.vals.length := by
            by_contra hge
            have hna : c.vals.getD i Cell.na = Cell.na := by
              rw [List.getD_eq_getElem?_getD, List.getElem?_eq_none (Nat.le_of_not_lt hge)]
              rfl
            rw [hna] at hvi
            exact Cell.noConfusion hvi
          have hmem : Cell.str s ∈ c.vals := by
            have hm2 := getD_mem c.vals i Cell.na hlt
            rw [hvi] at hm2
            exact hm2
          have hctrue : (c.vals.any (fun v => match v with | .str _ => true | _ => false))
              = true := by
            rw [List.any_eq_true]
            exact ⟨Cell.str s, hmem, rfl⟩
          rw [hdt2, hctrue] at hsafe
          simp at hsafe
        rw [if_neg hcnd, hcrit]
        rw [filterIdx_selectRows df I c.vals (agePass lo hi) hne]

theorem stageDiagnosis_sel (df : DataFrame) (f : FilterSpec) (I : List Nat) :
    stageDiagnosis f (df.selectRows I) = df.selectRows (I.filter (critDiagnosis df f)) := by
  unfold stageDiagnosis
  rw [hasCol_selectRows]
  cases hact : activeStr f.diagnosis && df.hasCol "cancer" with
  | false =>
    have hcrit : critDiagnosis df f = fun _ => true := by
      funext i
      unfold critDiagnosis
      rw [if_neg (bool_ne_true hact)]
    rw [hcrit, List.filter_true, if_neg Bool.false_ne_true]
  | true =>
    obtain ⟨c, hc⟩ := hasCol_exists df "cancer" (Bool.and_elim_right hact)
    rw [if_pos rfl]
    by_cases hm : f.diagnosis = some "Maligno"
    · have hcrit : critDiagnosis df f
          = fun i => ((c.vals.getD i Cell.na) == Cell.str "Yes") := by
        funext i
        unfold critDiagnosis
        rw [if_pos hact, hc]
        dsimp only
        rw [if_pos hm]
      rw [if_pos hm, hcrit, filterByCol_sel, hc]
    · by_cases hb : f.diagnosis = some "Benigno"
      · have hcrit : critDiagnosis df f
            = fun i => ((c.vals.getD i Cell.na) == Cell.str "No") := by
          funext i
          unfold critDiagnosis
          rw [if_pos hact, hc]
          dsimp only
          rw [if_neg hm, if_pos hb]
        rw [if_neg hm, if_pos hb, hcrit, filterByCol_sel, hc]
      · have hcrit : critDiagnosis df f = fun _ => true := by
          funext i
          unfold critDiagnosis
          rw [if_pos hact, hc]
          dsimp only
          rw [if_neg hm, if_neg hb]
        rw [if_neg hm, if_neg hb, hcrit, List.filter_true]

theorem stageMenopause_sel (df : DataFrame) (f : FilterSpec) (I : List Nat) :
    stageMenopause f (df.selectRows I) = df.selectRows (I.filter (critMenopause df f)) := by
  unfold stageMenopause
  rw [hasCol_selectRows]
  cases hact : activeStr f.menopause && df.hasCol "menopause" with
  | false =>
    have hcrit : critMenopause df f = fun _ => true := by
      funext i
      unfold critMenopause
      rw [if_neg (bool_ne_true hact)]
    rw [hcrit, List.filter_true, if_neg Bool.false_ne_true]
  | true =>
    obtain ⟨c, hc⟩ := hasCol_exists df "menopause" (Bool.and_elim_right hact)
    rw [if_pos rfl]
    by_cases hm : f.menopause = some "Premenopáusica"
    · have hcrit : critMenopause df f
          = fun i => (pyStrip (cellToStr (c.vals.getD i Cell.na)) == "No") := by
        funext i
        unfold critMenopause
        rw [if_pos hact, hc]
        dsimp only
        rw [if_pos hm]
      rw [if_pos hm, hcrit, filterByCol_sel, hc]
    · by_cases hb : f.menopause = some "Posmenopáusica"
      · have hcrit : critMenopause df f
            = fun i => !(pyStrip (cellToStr (c.vals.getD i Cell.na)) == "No") := by
          funext i
          unfold critMenopause
          rw [if_pos hact, hc]
          dsimp only
          rw [if_neg hm, if_pos hb]
        rw [if_neg hm, if_pos hb, hcrit, filterByCol_sel, hc]
      · have hcrit : critMenopause df f = fun _ => true := by
          funext i
          unfold critMenopause
          rw [if_pos hact, hc]
          dsimp only
          rw [if_neg hm, if_neg hb]
        rw [if_neg hm, if_neg hb, hcrit, List.filter_true]

theorem stageBirads_sel (df : DataFrame) (f : FilterSpec) (I : List Nat) :
    stageBirads f (df.selectRows I) = df.selectRows (I.filter (critBirads df f)) := by
  unfold stageBirads
  cases hbr : f.birads with
  | none =>
    have hcrit : critBirads df f = fun _ => true := by
      funext i
      unfold critBirads
      rw [hbr]
    rw [hcrit, List.filter_true]
  | some b =>
    rw [hasCol_selectRows]
    cases hact : activeStr (some b) && df.hasCol "birads" with
    | false =>
      have hcrit : critBirads df f = fun _ => true := by
        funext i
        unfold critBirads
        rw [hbr]
        dsimp only
        rw [if_neg (bool_ne_true hact)]
      rw [hcrit, List.filter_true]
      dsimp only
      rw [if_neg Bool.false_ne_true]
    | true =>
      obtain ⟨c, hc⟩ := hasCol_exists df "birads" (Bool.and_elim_right hact)
      have hcrit : critBirads df f
          = fun i => ((pyStrip (cellToStr (c.vals.getD i Cell.na))).startsWith b) := by
        funext i
        unfold critBirads
        rw [hbr]
        dsimp only
        rw [if_pos hact, hc]
      dsimp only
      rw [if_pos rfl, hcrit, filterByCol_sel, hc]

theorem stageBreastfeeding_sel (df : DataFrame) (f : FilterSpec) (I : List Nat) :
    stageBreastfeeding f (df.selectRows I)
      = df.selectRows (I.filter (critBreastfeeding df f)) := by
  unfold stageBreastfeeding
  rw [hasCol_selectRows]
  cases hact : activeStr f.breastfeeding && df.hasCol "breastfeeding" with
  | false =>
    have hcrit : critBreastfeeding df f = fun _ => true := by
      funext i
      unfold critBreastfeeding
      rw [if_neg (bool_ne_true hact)]
    rw [hcrit, List.filter_true, if_neg Bool.false_ne_true]
  | true =>
    obtain ⟨c, hc⟩ := hasCol_exists df "breastfeeding" (Bool.and_elim_right hact)
    rw [if_pos rfl]
    by_cases hm : f.breastfeeding = some "Sí"
    · have hcrit : critBreastfeeding df f
          = fun i => !((c.vals.getD i Cell.na) == Cell.str "No") := by
        funext i
        unfold critBreastfeeding
        rw [if_pos hact, hc]
        dsimp only
        rw [if_pos hm]
      rw [if_pos hm, hcrit, filterByCol_sel, hc]
    · by_cases hb : f.breastfeeding = some "No"
      · have hcrit : critBreastfeeding df f
            = fun i => ((c.vals.getD i Cell.na) == Cell.str "No") := by
          funext i
          unfold critBreastfeeding
          rw [if_pos hact, hc]
          dsimp only
          rw [if_neg hm, if_pos hb]
        rw [if_neg hm, if_pos hb, hcrit, filterByCol_sel, hc]
      · have hcrit : critBreastfeeding df f = fun _ => true := by
          funext i
          unfold critBreastfeeding
          rw [if_pos hact, hc]
          dsimp only
          rw [if_neg hm, if_neg hb]
        rw [if_neg hm, if_neg hb, hcrit, List.filter_true]

theorem except_bind_ok {ε α β : Type} (x : α) (k : α → Except ε β) :
    (Except.ok x : Except ε α) >>= k = k x := rfl

theorem filter_filter_bool {α : Type} (p q : α → Bool) (l : List α) :
    (l.filter p).filter q = l.filter (fun a => p a && q a) := by
  induction l with
  | nil => rfl
  | cons a t ih =>
    by_cases hp : p a = true <;> by_cases hq : q a = true <;>
      simp [List.filter_cons, hp, hq, ih]

theorem applyFilters_ok (df : DataFrame) (f : FilterSpec)
    (hwf : df.wf) (hsafe : ageFilterSafe df f = true) :
    applyFilters df f = .ok (df.filterIdx (conjCriteria df f)) := by
  have e1 : stageAge f df
      = .ok (df.selectRows ((List.range df.nrows).filter (critAge df f))) := by
    conv_lhs => rw [← selectRows_range_self df hwf]
    exact stageAge_sel df f _ hsafe
  unfold applyFilters
  rw [e1, except_bind_ok]
  dsimp only
  rw [stageDiagnosis_sel df f _, stageMenopause_sel df f _, stageBirads_sel df f _,
    stageBreastfeeding_sel df f _]
  rw [filter_filter_bool, filter_filter_bool, filter_filter_bool, filter_filter_bool]
  rfl

theorem getCol_none_of_hasCol_false (df : DataFrame) (nm : String)
    (h : df.hasCol nm = false) : df.getCol nm = none := by
  unfold DataFrame.hasCol at h
  exact Option.not_isSome_iff_eq_none.mp (by rw [h]; exact Bool.false_ne_true)

theorem critAge_prune (df : DataFrame) (f : FilterSpec) (i : Nat) :
    critAge df (pruneSpec df f) i = critAge df f i := by
  unfold critAge pruneSpec
  dsimp only
  cases hhc : df.hasCol "age" with
  | true => rw [if_pos rfl, if_pos rfl]
  | false =>
    rw [if_neg Bool.false_ne_true, if_neg Bool.false_ne_true]
    cases f.ageMin with
    | none => rfl
    | some lo =>
      cases f.ageMax with
      | none => rfl
      | some hi =>
        rw [getCol_none_of_hasCol_false df "age" hhc]

theorem critDiagnosis_prune (df : DataFrame) (f : FilterSpec) (i : Nat) :
    critDiagnosis df (pruneSpec df f) i = critDiagnosis df f i := by
  unfold critDiagnosis pruneSpec
  dsimp only
  cases hhc : df.hasCol "cancer" with
  | true => rfl
  | false =>
    rw [if_neg Bool.false_ne_true]
    simp [activeStr]

theorem critMenopause_prune (df : DataFrame) (f : FilterSpec) (i : Nat) :
    critMenopause df (pruneSpec df f) i = critMenopause df f i := by
  unfold critMenopause pruneSpec
  dsimp only
  cases hhc : df.hasCol "menopause" with
  | true => rfl
  | false =>
    rw [if_neg Bool.false_ne_true]
    simp [activeStr]

theorem critBirads_prune (df : DataFrame) (f : FilterSpec) (i : Nat) :
    critBirads df (pruneSpec df f) i = critBirads df f i := by
  unfold critBirads pruneSpec
  dsimp only
  cases hhc : df.hasCol "birads" with
  | true => rfl
  | false =>
    cases f.birads with
    | none => rfl
    | some b => simp

theorem critBreastfeeding_prune (df : DataFrame) (f : FilterSpec) (i : Nat) :
    critBreastfeeding df (pruneSpec df f) i = critBreastfeeding df f i := by
  unfold critBreastfeeding pruneSpec
  dsimp only
  cases hhc : df.hasCol "breastfeeding" with
  | true => rfl
  | false =>
    rw [if_neg Bool.false_ne_true]
    simp [activeStr]

theorem ageFilterSafe_prune (df : DataFrame) (f : FilterSpec)
    (hsafe : ageFilterSafe df f = true) :
    ageFilterSafe df (pruneSpec df f) = true := by
  unfold ageFilterSafe pruneSpec at *
  dsimp only
  cases hhc : df.hasCol "age" with
  | true => exact hsafe
  | false =>
    rw [if_neg Bool.false_ne_true]

/-- Claim C7 (amended).  Provided the age criterion is applicable without a
`TypeError` (the only unguarded comparison: a string-valued object age
column with an active age range raises), `apply_filters` returns the rows
satisfying the conjunction (AND) of all supplied criteria whose columns
exist, criteria referencing missing columns are silently skipped, and the
statistics summary under the filters equals the summary under the
specification restricted to the valid criteria present. -/
theorem filters_conjunctive_skip_invalid (df : DataFrame) (f : FilterSpec)
    (hwf : df.wf) (hsafe : ageFilterSafe df f = true) :
    applyFilters df f = .ok (df.filterIdx (conjCriteria df f))
    ∧ applyFilters df f = applyFilters df (pruneSpec df f)
    ∧ getSummaryStatistics df (some f) = getSummaryStatistics df (some (pruneSpec df f)) := by
  have h1 := applyFilters_ok df f hwf hsafe
  have h2 := applyFilters_ok df (pruneSpec df f) hwf (ageFilterSafe_prune df f hsafe)
  have hcrit : conjCriteria df (pruneSpec df f) = conjCriteria df f := by
    funext i
    unfold conjCriteria
    rw [critAge_prune, critDiagnosis_prune, critMenopause_prune, critBirads_prune,
      critBreastfeeding_prune]
  have happ : applyFilters df f = applyFilters df (pruneSpec df f) := by
    rw [h1, h2, hcrit]
  refine ⟨h1, happ, ?_⟩
  unfold getSummaryStatistics
  dsimp only
  rw [happ]

/-- Witness for the C7 theorem: a frame with age and cancer columns, a
specification with an age range, a diagnosis criterion, and a menopause
criterion whose column does not exist (silently skipped). -/
theorem filters_conjunctive_witness :
    applyFilters ⟨[⟨"age", .numeric, [.num 25, .num 45]⟩,
        ⟨"cancer", .object, [.str "Yes", .str "No"]⟩]⟩
        ⟨some 20, some 30, some "Maligno", some "Posmenopáusica", none, none⟩
      = .ok ((⟨[⟨"age", .numeric, [.num 25, .num 45]⟩,
          ⟨"cancer", .object, [.str "Yes", .str "No"]⟩]⟩ : DataFrame).filterIdx
          (conjCriteria ⟨[⟨"age", .numeric, [.num 25, .num 45]⟩,
            ⟨"cancer", .object, [.str "Yes", .str "No"]⟩]⟩
            ⟨some 20, some 30, some "Maligno", some "Posmenopáusica", none, none⟩))
    ∧ applyFilters ⟨[⟨"age", .numeric, [.num 25, .num 45]⟩,
        ⟨"cancer", .object, [.str "Yes", .str "No"]⟩]⟩
        ⟨some 20, some 30, some "Maligno", some "Posmenopáusica", none, none⟩
      = applyFilters ⟨[⟨"age", .numeric, [.num 25, .num 45]⟩,
          ⟨"cancer", .object, [.str "Yes", .str "No"]⟩]⟩
          (pruneSpec ⟨[⟨"age", .numeric, [.num 25, .num 45]⟩,
            ⟨"cancer", .object, [.str "Yes", .str "No"]⟩]⟩
            ⟨some 20, some 30, some "Maligno", some "Posmenopáusica", none, none⟩)
    ∧ getSummaryStatistics ⟨[⟨"age", .numeric, [.num 25, .num 45]⟩,
        ⟨"cancer", .object, [.str "Yes", .str "No"]⟩]⟩
        (some ⟨some 20, some 30, some "Maligno", some "Posmenopáusica", none, none⟩)
      = getSummaryStatistics ⟨[⟨"age", .numeric, [.num 25, .num 45]⟩,
          ⟨"cancer", .object, [.str "Yes", .str "No"]⟩]⟩
          (some (pruneSpec ⟨[⟨"age", .numeric, [.num 25, .num 45]⟩,
            ⟨"cancer", .object, [.str "Yes", .str "No"]⟩]⟩
            ⟨some 20, some 30, some "Maligno", some "Posmenopáusica", none, none⟩)) :=
  filters_conjunctive_skip_invalid
    ⟨[⟨"age", .numeric, [.num 25, .num 45]⟩, ⟨"cancer", .object, [.str "Yes", .str "No"]⟩]⟩
    ⟨some 20, some 30, some "Maligno", some "Posmenopáusica", none, none⟩
    (by decide) (by decide)

/-- Claim C7, counterexample.  An active age range over a string-valued
object `age` column makes the unguarded comparison raise, so the filters
are not applied (no criterion is "applied conjunctively") and the summary
propagates the exception instead of returning a result. -/
theorem age_filter_type_error :
    (applyFilters ⟨[⟨"age", .object, [.str "abc"]⟩]⟩
        ⟨some 1, some 2, none, none, none, none⟩).toOption = none
    ∧ (getSummaryStatistics ⟨[⟨"age", .object, [.str "abc"]⟩]⟩
        (some ⟨some 1, some 2, none, none, none, none⟩)).toOption = none := by
  decide

theorem applyFilters_error_unguarded (df : DataFrame) (f : FilterSpec)
    (h : ageFilterSafe df f = false) :
    applyFilters df f = .error "TypeError: comparison of str and numeric filter bound" := by
  unfold ageFilterSafe at h
  unfold applyFilters stageAge
  cases hmin : f.ageMin with
  | none => rw [hmin] at h; simp at h
  | some lo =>
    cases hmax : f.ageMax with
    | none => rw [hmin, hmax] at h; simp at h
    | some hi =>
      rw [hmin, hmax] at h
      dsimp only at h
      cases hc : df.getCol "age" with
      | none => rw [hc] at h; simp at h
      | some c =>
        rw [hc] at h
        dsimp only at h
        have hcnd : c.dt = Dtype.object
            ∧ c.vals.any (fun v => match v with | .str _ => true | _ => false) = true := by
          have h2 : (c.dt == Dtype.object
              && c.vals.any (fun v => match v with | .str _ => true | _ => false)) = true := by
            cases hb : (c.dt == Dtype.object
                && c.vals.any (fun v => match v with | .str _ => true | _ => false)) with
            | true => rfl
            | false => rw [hb] at h; simp at h
          rw [Bool.and_eq_true] at h2
          exact ⟨by have := h2.1; exact eq_of_beq this, h2.2⟩
        dsimp only
        rw [if_pos hcnd]
        rfl

theorem applyFilters_ok_inv (d : DataFrame) (f : FilterSpec) (d2 : DataFrame)
    (hwf : d.wf) (h : applyFilters d f = .ok d2) :
    d2 = d.filterIdx (conjCriteria d f) := by
  cases hs : ageFilterSafe d f with
  | true =>
    rw [applyFilters_ok d f hwf hs] at h
    exact (Except.ok.inj h).symm
  | false =>
    rw [applyFilters_error_unguarded d f hs] at h
    exact Except.noConfusion h

theorem rowAt_selectRows (df : DataFrame) (I : List Nat) (j : Nat) (hj : j < I.length) :
    (df.selectRows I).rowAt j = df.rowAt (I.getD j 0) := by
  unfold DataFrame.rowAt DataFrame.selectRows
  dsimp only
  rw [List.map_map]
  apply List.map_congr_left
  intro c _
  simp only [Function.comp]
  exact getD_map_lt I _ j Cell.na 0 hj

theorem rows_selectRows (df : DataFrame) (I : List Nat) (hne : df.cols ≠ []) :
    (df.selectRows I).rows = I.map (fun i => df.rowAt i) := by
  unfold DataFrame.rows
  rw [nrows_selectRows df I hne]
  apply List.ext_getElem
  · simp
  · intro j h1 h2
    simp only [List.getElem_map, List.getElem_range]
    rw [rowAt_selectRows df I j (by simpa using h2)]
    congr 1
    rw [List.getD_eq_getElem?_getD, List.getElem?_eq_getElem (by simpa using h2)]
    rfl

theorem rows_sublist_of_selectRows (df : DataFrame) (I : List Nat)
    (hsub : I.Sublist (List.range df.nrows)) :
    (df.selectRows I).rows.Sublist df.rows := by
  cases hcols : df.cols with
  | nil =>
    have hz : (df.selectRows I).rows = [] := by
      unfold DataFrame.rows DataFrame.nrows DataFrame.selectRows
      rw [hcols]
      rfl
    rw [hz]
    exact List.nil_sublist _
  | cons c t =>
    have hne : df.cols ≠ [] := by rw [hcols]; exact List.cons_ne_nil _ _
    rw [rows_selectRows df I hne]
    unfold DataFrame.rows
    exact hsub.map df.rowAt

/-- Claim C8.  `apply_filters` (also when invoked through the statistics
summary) never mutates the stored frame: the processor state is returned
unchanged, and any returned frame is a derived row subset of the stored one
(same columns, rows a sublist of the stored rows). -/
theorem apply_filters_never_mutates (st : ProcState) (f : FilterSpec)
    (hwf : ∀ d, st.df = some d → d.wf) :
    (applyFiltersProc st f).1 = st
    ∧ ∀ d d2, st.df = some d → (applyFiltersProc st f).2 = .ok (some d2) →
        d2.colNames = d.colNames ∧ d2.rows.Sublist d.rows := by
  constructor
  · unfold applyFiltersProc
    cases st.df <;> rfl
  · intro d d2 hd h2
    unfold applyFiltersProc at h2
    rw [hd] at h2
    dsimp only at h2
    have hok : applyFilters d f = .ok d2 := by
      cases hres : applyFilters d f with
      | error e =>
        rw [hres] at h2
        simp only [Except.map] at h2
        exact Except.noConfusion h2
      | ok x =>
        rw [hres] at h2
        simp only [Except.map] at h2
        have hx := Option.some.inj (Except.ok.inj h2)
        rw [hx]
    have hdeq := applyFilters_ok_inv d f d2 (hwf d hd) hok
    rw [hdeq]
    exact ⟨colNames_selectRows d _, rows_sublist_of_selectRows d _ (List.filter_sublist _)⟩

/-- Witness for the C8 theorem at a concrete state and filter. -/
theorem apply_filters_never_mutates_witness :
    (applyFiltersProc ⟨some ⟨[⟨"age", .numeric, [.num 25, .num 45]⟩]⟩, []⟩
        ⟨some 20, some 30, none, none, none, none⟩).1
      = ⟨some ⟨[⟨"age", .numeric, [.num 25, .num 45]⟩]⟩, []⟩
    ∧ (⟨[⟨"age", .numeric, [.num 25]⟩]⟩ : DataFrame).colNames
        = (⟨[⟨"age", .numeric, [.num 25, .num 45]⟩]⟩ : DataFrame).colNames
    ∧ (⟨[⟨"age", .numeric, [.num 25]⟩]⟩ : DataFrame).rows.Sublist
        (⟨[⟨"age", .numeric, [.num 25, .num 45]⟩]⟩ : DataFrame).rows := by
  have h := apply_filters_never_mutates
    ⟨some ⟨[⟨"age", .numeric, [.num 25, .num 45]⟩]⟩, []⟩
    ⟨some 20, some 30, none, none, none, none⟩
    (by
      intro d hd
      injection hd with h2
      rw [← h2]
      decide)
  refine ⟨h.1, ?_, ?_⟩
  · exact (h.2 ⟨[⟨"age", .numeric, [.num 25, .num 45]⟩]⟩ ⟨[⟨"age", .numeric, [.num 25]⟩]⟩
      rfl (by rfl)).1
  · exact (h.2 ⟨[⟨"age", .numeric, [.num 25, .num 45]⟩]⟩ ⟨[⟨"age", .numeric, [.num 25]⟩]⟩
      rfl (by rfl)).2

theorem dropWhile_append_singleton {α : Type} (p : α → Bool) (xs : List α) (a : α)
    (h : p a = false) :
    (xs ++ [a]).dropWhile p = xs.dropWhile p ++ [a] := by
  induction xs with
  | nil => simp [List.dropWhile_cons, h]
  | cons x xs ih =>
    by_cases hx : p x
    · simp [List.dropWhile_cons, hx, ih]
    · simp [List.dropWhile_cons, hx]

theorem dropWhile_head_false {α : Type} (p : α → Bool) (l : List α) (a : α) (t : List α)
    (h : l.dropWhile p = a :: t) : p a = false := by
  induction l with
  | nil => exact absurd h (by simp)
  | cons x xs ih =>
    rw [List.dropWhile_cons] at h
    by_cases hx : p x
    · rw [if_pos hx] at h; exact ih h
    · rw [if_neg hx] at h
      injection h with h1 _
      rw [← h1]
      exact Bool.eq_false_iff.mpr hx

theorem dropWhile_self {α : Type} (p : α → Bool) (l : List α) :
    (l.dropWhile p).dropWhile p = l.dropWhile p := by
  cases h : l.dropWhile p with
  | nil => rfl
  | cons a t =>
    have ha := dropWhile_head_false p l a t h
    simp [List.dropWhile_cons, ha]

theorem trimRight_cons_neg (a : Char) (t : List Char) (h : isPyWs a = false) :
    trimRight (a :: t) = a :: trimRight t := by
  unfold trimRight
  rw [List.reverse_cons, dropWhile_append_singleton isPyWs t.reverse a h, List.reverse_append]
  rfl

theorem trimRight_idem (l : List Char) : trimRight (trimRight l) = trimRight l := by
  unfold trimRight
  rw [List.reverse_reverse, dropWhile_self]

theorem dropWhile_trimChars (l : List Char) :
    (trimChars l).dropWhile isPyWs = trimChars l := by
  unfold trimChars
  cases h : l.dropWhile isPyWs with
  | nil => rfl
  | cons a t =>
    have ha := dropWhile_head_false isPyWs l a t h
    rw [trimRight_cons_neg a t ha, List.dropWhile_cons]
    simp [ha]

theorem trimChars_idem (l : List Char) : trimChars (trimChars l) = trimChars l := by
  show trimRight ((trimChars l).dropWhile isPyWs) = trimChars l
  rw [dropWhile_trimChars]
  show trimRight (trimRight (l.dropWhile isPyWs)) = trimChars l
  rw [trimRight_idem]
  rfl

theorem pyStrip_idem (s : String) : pyStrip (pyStrip s) = pyStrip s := by
  exact congrArg String.mk (trimChars_idem s.data)

theorem textNorm_idem (c : Cell) : textNorm (textNorm c) = textNorm c := by
  unfold textNorm
  have hfix : pyStrip (pyStrip (cellToStr c)) = pyStrip (cellToStr c) := pyStrip_idem _
  by_cases h1 : pyStrip (cellToStr c) ∈ yesKeys
  · have hr : replaceYesNo (pyStrip (cellToStr c)) = .str "Yes" := by
      unfold replaceYesNo; rw [if_pos h1]
    rw [hr]
    decide
  · by_cases h2 : pyStrip (cellToStr c) ∈ noKeys
    · have hr : replaceYesNo (pyStrip (cellToStr c)) = .str "No" := by
        unfold replaceYesNo; rw [if_neg h1, if_pos h2]
      rw [hr]
      decide
    · by_cases h3 : pyStrip (cellToStr c) ∈ nullKeys
      · have hr : replaceYesNo (pyStrip (cellToStr c)) = .na := by
          unfold replaceYesNo; rw [if_neg h1, if_neg h2, if_pos h3]
        rw [hr]
        decide
      · have hr : replaceYesNo (pyStrip (cellToStr c)) = .str (pyStrip (cellToStr c)) := by
          unfold replaceYesNo; rw [if_neg h1, if_neg h2, if_neg h3]
        rw [hr]
        show replaceYesNo (pyStrip (pyStrip (cellToStr c))) = .str (pyStrip (cellToStr c))
        rw [hfix]
        unfold replaceYesNo
        rw [if_neg h1, if_neg h2, if_neg h3]

theorem missingReport_nil_iff (df : DataFrame) :
    missingReport df = [] ↔ ∀ c ∈ df.cols, c.missingCount = 0 := by
  unfold missingReport
  rw [List.filterMap_eq_nil_iff]
  constructor
  · intro h c hc
    have h2 := h c hc
    by_cases hm : c.missingCount > 0
    · rw [if_pos hm] at h2; exact absurd h2 (by simp)
    · omega
  · intro h c hc
    rw [h c hc]
    rfl

theorem selectRows_wf (df : DataFrame) (I : List Nat) : (df.selectRows I).wf := by
  intro c hc
  unfold DataFrame.selectRows at hc
  dsimp only at hc
  rcases List.mem_map.mp hc with ⟨c0, hc0, hce⟩
  rw [← hce]
  dsimp only
  rw [List.length_map]
  cases hcols : df.cols with
  | nil => rw [hcols] at hc0; exact absurd hc0 (List.not_mem_nil _)
  | cons a t =>
    have hne : df.cols ≠ [] := by rw [hcols]; exact List.cons_ne_nil _ _
    rw [nrows_selectRows df I hne]

theorem cleanData_wf (df : DataFrame) : ((cleanData df).1).wf := by
  rw [cleanData_fst]
  intro c hc
  dsimp only at hc
  rw [List.map_map] at hc
  rcases List.mem_map.mp hc with ⟨c0, hc0, hce⟩
  have hlen : c.vals.length = c0.vals.length := by
    rw [← hce]
    simp only [Function.comp]
    rw [catStep_len, numStep_len]
  have hnr : DataFrame.nrows
      ⟨((df.dropDuplicates).cols.map (fun c => (numStep c).1)).map (fun c => (catStep c).1)⟩
      = (df.dropDuplicates).nrows := by
    rw [List.map_map]
    exact nrows_map_cols (df.dropDuplicates) _
      (fun c => by simp only [Function.comp]; rw [catStep_len, numStep_len])
  rw [hnr, hlen]
  exact selectRows_wf df (df.dupKeepIdx) c0 hc0

theorem modeFirst_mem (l : List String) (m : String) (h : modeFirst l = some m) : m ∈ l := by
  unfold modeFirst at h
  have h1 := List.argmax_mem h
  have h2 := (List.mem_insertionSort _).mp h1
  exact List.mem_dedup.mp h2

theorem cellStr_eq_of_matchSome (u : Cell) (m : String)
    (h : (match u with | Cell.str s => some s | _ => none) = some m) : u = Cell.str m := by
  cases u with
  | num q => exact Option.noConfusion h
  | str s => rw [Option.some.inj h]
  | na => exact Option.noConfusion h

theorem cleanTextCol_fixpoints (c : Col) (v : Cell) (hv : v ∈ ((cleanTextCol c).1).vals) :
    textNorm v = v := by
  unfold cleanTextCol at hv
  dsimp only at hv
  by_cases hm : (c.vals.map textNorm).countP (· == Cell.na) > 0
  · rw [if_pos hm] at hv
    cases hmode : modeFirst ((c.vals.map textNorm).filterMap
        (fun v => match v with | .str s => some s | _ => none)) with
    | some m =>
      rw [hmode] at hv
      dsimp only at hv
      rcases List.mem_map.mp hv with ⟨u, hu, hue⟩
      by_cases hun : u = Cell.na
      · rw [hun, if_pos rfl] at hue
        have hm2 := modeFirst_mem _ m hmode
        rcases List.mem_filterMap.mp hm2 with ⟨u2, hu2, hu2e⟩
        have hu2s := cellStr_eq_of_matchSome u2 m hu2e
        rw [hu2s] at hu2
        rcases List.mem_map.mp hu2 with ⟨w, _, hwe⟩
        rw [← hue, ← hwe, textNorm_idem]
      · rw [if_neg hun] at hue
        rcases List.mem_map.mp hu with ⟨w, _, hwe⟩
        rw [← hue, ← hwe, textNorm_idem]
    | none =>
      rw [hmode] at hv
      dsimp only at hv
      rcases List.mem_map.mp hv with ⟨w, _, hwe⟩
      rw [← hwe, textNorm_idem]
  · rw [if_neg hm] at hv
    dsimp only at hv
    rcases List.mem_map.mp hv with ⟨w, _, hwe⟩
    rw [← hwe, textNorm_idem]

theorem numStep_id (c : Col) (h : c.missingCount = 0) : numStep c = (c, none) := by
  unfold numStep imputeNumCol
  rw [h]
  by_cases hdt : c.dt = Dtype.numeric
  · rw [if_pos hdt]; rfl
  · rw [if_neg hdt]

theorem catStep_id (c : Col) (hfix : ∀ v ∈ c.vals, textNorm v = v)
    (h : c.missingCount = 0) : catStep c = (c, none) := by
  unfold catStep
  by_cases hdt : c.dt = Dtype.object
  · rw [if_pos hdt]
    unfold cleanTextCol
    have hmap : c.vals.map textNorm = c.vals := by
      rw [show c.vals.map textNorm = c.vals.map id from
        List.map_congr_left (fun a ha => hfix a ha), List.map_id]
    dsimp only
    rw [hmap, show c.vals.countP (· == Cell.na) = 0 from h]
    rfl
  · rw [if_neg hdt]

theorem mem_selectRows_vals (df : DataFrame) (hwf : df.wf) (I : List Nat)
    (hI : ∀ i ∈ I, i < df.nrows) (c : Col) (hc : c ∈ (df.selectRows I).cols)
    (v : Cell) (hv : v ∈ c.vals) :
    ∃ c0 ∈ df.cols, c.name = c0.name ∧ c.dt = c0.dt ∧ v ∈ c0.vals := by
  unfold DataFrame.selectRows at hc
  dsimp only at hc
  rcases List.mem_map.mp hc with ⟨c0, hc0, hce⟩
  refine ⟨c0, hc0, ?_, ?_, ?_⟩
  · rw [← hce]
  · rw [← hce]
  · rw [← hce] at hv
    dsimp only at hv
    rcases List.mem_map.mp hv with ⟨i, hi, hie⟩
    rw [← hie]
    exact getD_mem c0.vals i Cell.na (by rw [hwf c0 hc0]; exact hI i hi)

theorem dupKeepIdx_lt (df : DataFrame) : ∀ i ∈ df.dupKeepIdx, i < df.nrows := by
  intro i hi
  unfold DataFrame.dupKeepIdx at hi
  exact List.mem_range.mp (List.mem_filter.mp hi).1

/-- Claim C2 (corrected).  When the first run of `clean_data` leaves no
missing values, a second run performs zero imputations, reports empty
missing-value maps before and after, and only drops the duplicate rows that
the first run may have created by imputation (its reported duplicate count is
the duplicate count of the cleaned frame, not necessarily zero); the stored
transformation log is reset on each run to a single entry rather than
appended. -/
theorem clean_data_idempotent_second_run (df : DataFrame)
    (h : missingReport (cleanData df).1 = []) :
    (cleanData (cleanData df).1).1 = ((cleanData df).1).dropDuplicates
    ∧ (cleanData (cleanData df).1).2.missingBefore = []
    ∧ (cleanData (cleanData df).1).2.missingAfter = []
    ∧ (cleanData (cleanData df).1).2.imputation = []
    ∧ (cleanData (cleanData df).1).2.duplicatesRemoved = ((cleanData df).1).duplicatedCount
    ∧ ∀ st : ProcState, st.df = some (cleanData df).1 →
        ((cleanDataSt st).1).transformations.length = 1 := by
  have hwf1 : ((cleanData df).1).wf := cleanData_wf df
  have hnomiss : ∀ c ∈ ((cleanData df).1).cols, c.missingCount = 0 :=
    (missingReport_nil_iff _).mp h
  have hfix1 : ∀ c ∈ ((cleanData df).1).cols, c.dt = Dtype.object →
      ∀ v ∈ c.vals, textNorm v = v := by
    intro c hc hdt v hv
    rw [cleanData_fst] at hc
    dsimp only at hc
    rcases List.mem_map.mp hc with ⟨c1, _, hce⟩
    have hdt1 : c1.dt = Dtype.object := by
      rw [← catStep_dt c1, hce]
      exact hdt
    have hcat1 : catStep c1 = cleanTextCol c1 := by unfold catStep; rw [if_pos hdt1]
    rw [← hce, hcat1] at hv
    exact cleanTextCol_fixpoints c1 v hv
  have hDnomiss : ∀ c ∈ (((cleanData df).1).dropDuplicates).cols, c.missingCount = 0 := by
    intro c hc
    unfold Col.missingCount
    rw [List.countP_eq_zero]
    intro v hv
    rcases mem_selectRows_vals _ hwf1 _ (dupKeepIdx_lt _) c hc v hv with ⟨c0, hc0, _, _, hv0⟩
    have h0 := hnomiss c0 hc0
    unfold Col.missingCount at h0
    rw [List.countP_eq_zero] at h0
    exact h0 v hv0
  have hDfix : ∀ c ∈ (((cleanData df).1).dropDuplicates).cols, c.dt = Dtype.object →
      ∀ v ∈ c.vals, textNorm v = v := by
    intro c hc hdt v hv
    rcases mem_selectRows_vals _ hwf1 _ (dupKeepIdx_lt _) c hc v hv with ⟨c0, hc0, _, hdt0, hv0⟩
    exact hfix1 c0 hc0 (by rw [← hdt0]; exact hdt) v hv0
  have hnum : ∀ c ∈ (((cleanData df).1).dropDuplicates).cols, numStep c = (c, none) :=
    fun c hc => numStep_id c (hDnomiss c hc)
  have hcat : ∀ c ∈ (((cleanData df).1).dropDuplicates).cols, catStep c = (c, none) := by
    intro c hc
    by_cases hdt : c.dt = Dtype.object
    · exact catStep_id c (hDfix c hc hdt) (hDnomiss c hc)
    · unfold catStep; rw [if_neg hdt]
  have hcols1 : (((cleanData df).1).dropDuplicates).cols.map (fun c => (numStep c).1)
      = (((cleanData df).1).dropDuplicates).cols := by
    rw [show (((cleanData df).1).dropDuplicates).cols.map (fun c => (numStep c).1)
        = (((cleanData df).1).dropDuplicates).cols.map id from
      List.map_congr_left (fun c hc => by rw [hnum c hc]; rfl), List.map_id]
  have hlog1 : (((cleanData df).1).dropDuplicates).cols.filterMap (fun c => (numStep c).2)
      = [] := by
    rw [List.filterMap_eq_nil_iff]
    intro c hc
    rw [hnum c hc]
  have hcols2 : ((((cleanData df).1).dropDuplicates).cols.map (fun c => (numStep c).1)).map
      (fun c => (catStep c).1) = (((cleanData df).1).dropDuplicates).cols := by
    rw [hcols1, show (((cleanData df).1).dropDuplicates).cols.map (fun c => (catStep c).1)
        = (((cleanData df).1).dropDuplicates).cols.map id from
      List.map_congr_left (fun c hc => by rw [hcat c hc]; rfl), List.map_id]
  have hlog2 : ((((cleanData df).1).dropDuplicates).cols.map
      (fun c => (numStep c).1)).filterMap (fun c => (catStep c).2) = [] := by
    rw [hcols1, List.filterMap_eq_nil_iff]
    intro c hc
    rw [hcat c hc]
  have hfst2 : (cleanData (cleanData df).1).1 = ((cleanData df).1).dropDuplicates := by
    rw [cleanData_fst, hcols2]
  refine ⟨hfst2, ?_, ?_, ?_, ?_, ?_⟩
  · rw [cleanData_missingBefore]
    exact h
  · rw [cleanData_missingAfter, hfst2]
    exact (missingReport_nil_iff _).mpr hDnomiss
  · rw [cleanData_imputation, hlog1, hlog2]
    rfl
  · exact cleanData_dups _
  · intro st hst
    unfold cleanDataSt
    rw [hst]
    rfl

/-- Witness for the C2 theorem on a frame whose first cleaning imputes a
numeric and a text column completely, creating a duplicate row. -/
theorem clean_data_idempotent_witness :
    (cleanData (cleanData ⟨[⟨"age", .numeric, [.num 1, .na]⟩,
        ⟨"diag", .object, [.str " si ", .na]⟩]⟩).1).2.imputation = []
    ∧ (cleanData (cleanData ⟨[⟨"age", .numeric, [.num 1, .na]⟩,
        ⟨"diag", .object, [.str " si ", .na]⟩]⟩).1).2.missingAfter = []
    ∧ (cleanData (cleanData ⟨[⟨"age", .numeric, [.num 1, .na]⟩,
        ⟨"diag", .object, [.str " si ", .na]⟩]⟩).1).2.duplicatesRemoved
      = ((cleanData ⟨[⟨"age", .numeric, [.num 1, .na]⟩,
        ⟨"diag", .object, [.str " si ", .na]⟩]⟩).1).duplicatedCount
    ∧ ((cleanDataSt ⟨some (cleanData ⟨[⟨"age", .numeric, [.num 1, .na]⟩,
        ⟨"diag", .object, [.str " si ", .na]⟩]⟩).1, []⟩).1).transformations.length = 1 := by
  have h := clean_data_idempotent_second_run
    ⟨[⟨"age", .numeric, [.num 1, .na]⟩, ⟨"diag", .object, [.str " si ", .na]⟩]⟩
    (by decide)
  exact ⟨h.2.2.2.1, h.2.2.1, h.2.2.2.2.1,
    h.2.2.2.2.2 ⟨some (cleanData ⟨[⟨"age", .numeric, [.num 1, .na]⟩,
      ⟨"diag", .object, [.str " si ", .na]⟩]⟩).1, []⟩ rfl⟩

theorem codeLe_refl : ∀ l : List Nat, codeLe l l = true := by
  intro l
  induction l with
  | nil => rfl
  | cons a as ih =>
    unfold codeLe
    rw [if_neg (lt_irrefl a), if_neg (lt_irrefl a)]
    exact ih

theorem codeLe_total : ∀ l1 l2 : List Nat, codeLe l1 l2 = true ∨ codeLe l2 l1 = true := by
  intro l1
  induction l1 with
  | nil => intro l2; exact Or.inl rfl
  | cons a as ih =>
    intro l2
    cases l2 with
    | nil => exact Or.inr rfl
    | cons b bs =>
      by_cases hab : a < b
      · exact Or.inl (by unfold codeLe; rw [if_pos hab])
      · by_cases hba : b < a
        · exact Or.inr (by unfold codeLe; rw [if_pos hba])
        · rcases ih bs with h | h
          · exact Or.inl (by unfold codeLe; rw [if_neg hab, if_neg hba]; exact h)
          · exact Or.inr (by unfold codeLe; rw [if_neg hba, if_neg hab]; exact h)

theorem codeLe_trans : ∀ l1 l2 l3 : List Nat,
    codeLe l1 l2 = true → codeLe l2 l3 = true → codeLe l1 l3 = true := by
  intro l1
  induction l1 with
  | nil => intro l2 l3 _ _; rfl
  | cons a as ih =>
    intro l2 l3 h1 h2
    cases l2 with
    | nil => exact absurd h1 (by simp [codeLe])
    | cons b bs =>
      cases l3 with
      | nil => exact absurd h2 (by simp [codeLe])
      | cons c cs =>
        unfold codeLe at h1 h2 ⊢
        by_cases hab : a < b
        · rw [if_pos hab] at h1
          by_cases hbc : b < c
          · rw [if_pos (by omega : a < c)]
          · by_cases hcb : c < b
            · rw [if_neg hbc, if_pos hcb] at h2; exact absurd h2 (by simp)
            · rw [if_pos (by omega : a < c)]
        · by_cases hba : b < a
          · rw [if_neg hab, if_pos hba] at h1; exact absurd h1 (by simp)
          · rw [if_neg hab, if_neg hba] at h1
            by_cases hbc : b < c
            · rw [if_pos (by omega : a < c)]
            · by_cases hcb : c < b
              · rw [if_neg hbc, if_pos hcb] at h2; exact absurd h2 (by simp)
              · rw [if_neg hbc, if_neg hcb] at h2
                rw [if_neg (by omega : ¬ a < c), if_neg (by omega : ¬ c < a)]
                exact ih bs cs h1 h2

theorem pyStrLe_refl (s : String) : pyStrLe s s = true := codeLe_refl _

theorem pyStrLe_total (a b : String) : pyStrLe a b = true ∨ pyStrLe b a = true :=
  codeLe_total _ _

theorem pyStrLe_trans (a b c : String) :
    pyStrLe a b = true → pyStrLe b c = true → pyStrLe a c = true :=
  codeLe_trans _ _ _

theorem modeFirst_count_le (l : List String) (m : String) (h : modeFirst l = some m)
    (s : String) (hs : s ∈ l) : l.count s ≤ l.count m := by
  unfold modeFirst at h
  have hs2 : s ∈ (l.dedup).insertionSort (fun a b => pyStrLe a b = true) := by
    rw [List.mem_insertionSort]
    exact List.mem_dedup.mpr hs
  exact List.le_of_mem_argmax hs2 h

theorem modeFirst_least (l : List String) (m : String) (h : modeFirst l = some m)
    (s : String) (hs : s ∈ l) (hcount : l.count m ≤ l.count s) : pyStrLe m s = true := by
  by_cases hms : m = s
  · rw [hms]; exact pyStrLe_refl s
  · unfold modeFirst at h
    have hsL : s ∈ (l.dedup).insertionSort (fun a b => pyStrLe a b = true) := by
      rw [List.mem_insertionSort]
      exact List.mem_dedup.mpr hs
    have hmL : m ∈ (l.dedup).insertionSort (fun a b => pyStrLe a b = true) :=
      List.argmax_mem h
    have hm2 := List.indexOf_lt_length.mpr hmL
    have hs2 := List.indexOf_lt_length.mpr hsL
    have hidx := List.index_of_argmax h hsL hcount
    have hlt : ((l.dedup).insertionSort (fun a b => pyStrLe a b = true)).indexOf m
        < ((l.dedup).insertionSort (fun a b => pyStrLe a b = true)).indexOf s := by
      rcases Nat.lt_or_ge (((l.dedup).insertionSort (fun a b => pyStrLe a b = true)).indexOf m)
          (((l.dedup).insertionSort (fun a b => pyStrLe a b = true)).indexOf s) with h2 | h2
      · exact h2
      · exfalso
        apply hms
        have heq := le_antisymm hidx h2
        have hgm := List.getElem_indexOf hm2
        have hgs := List.getElem_indexOf hs2
        rw [← hgm, ← hgs]
        congr 1
    have hsorted : ((l.dedup).insertionSort (fun a b => pyStrLe a b = true)).Sorted
        (fun a b => pyStrLe a b = true) :=
      @List.sorted_insertionSort String _ (fun a b => Bool.decEq _ _)
        ⟨pyStrLe_total⟩ ⟨pyStrLe_trans⟩ (l.dedup)
    have hfin : (⟨((l.dedup).insertionSort (fun a b => pyStrLe a b = true)).indexOf m, hm2⟩ :
        Fin ((l.dedup).insertionSort (fun a b => pyStrLe a b = true)).length)
        < ⟨((l.dedup).insertionSort (fun a b => pyStrLe a b = true)).indexOf s, hs2⟩ :=
      Fin.mk_lt_mk.mpr hlt
    have hrel := List.Sorted.rel_get_of_lt hsorted hfin
    rw [List.get_eq_getElem, List.get_eq_getElem, List.getElem_indexOf hm2,
      List.getElem_indexOf hs2] at hrel
    exact hrel

theorem modeFirst_eq_none (l : List String) (h : modeFirst l = none) : l = [] := by
  unfold modeFirst at h
  rw [List.argmax_eq_none] at h
  by_contra hne
  rcases List.exists_mem_of_ne_nil l hne with ⟨a, ha⟩
  have ha2 : a ∈ (l.dedup).insertionSort (fun a b => pyStrLe a b = true) := by
    rw [List.mem_insertionSort]
    exact List.mem_dedup.mpr ha
  rw [h] at ha2
  exact List.not_mem_nil a ha2

/-- Claim C5 (corrected).  After `clean_data`, each text column is mapped
cell by cell through `astype(str).str.strip()` followed by the exact-match
replace dictionary (case variants outside the listed spellings are left
unchanged, so the replacement is not case-insensitive), with the textual
null tokens becoming true missing; remaining missing cells are then filled
with the column mode, which on ties is the least modal value in Python
string order rather than the first encountered. -/
theorem clean_data_text_columns (df : DataFrame) (c : Col)
    (hc : c ∈ (df.dropDuplicates).cols) (hdt : c.dt = Dtype.object) :
    ∃ c2 ∈ ((cleanData df).1).cols,
      c2.name = c.name ∧ c2.dt = Dtype.object
      ∧ ((c.vals.map textNorm).countP (· == Cell.na) = 0 → c2.vals = c.vals.map textNorm)
      ∧ (0 < (c.vals.map textNorm).countP (· == Cell.na) →
          (((c.vals.map textNorm).filterMap
              (fun v => match v with | Cell.str s => some s | _ => none) = []
            ∧ c2.vals = c.vals.map textNorm)
           ∨ ∃ m, m ∈ (c.vals.map textNorm).filterMap
                (fun v => match v with | Cell.str s => some s | _ => none)
             ∧ (∀ s ∈ (c.vals.map textNorm).filterMap
                  (fun v => match v with | Cell.str s => some s | _ => none),
                 ((c.vals.map textNorm).filterMap
                    (fun v => match v with | Cell.str s => some s | _ => none)).count s
                   ≤ ((c.vals.map textNorm).filterMap
                      (fun v => match v with | Cell.str s => some s | _ => none)).count m)
             ∧ (∀ s ∈ (c.vals.map textNorm).filterMap
                  (fun v => match v with | Cell.str s => some s | _ => none),
                 ((c.vals.map textNorm).filterMap
                    (fun v => match v with | Cell.str s => some s | _ => none)).count m
                   ≤ ((c.vals.map textNorm).filterMap
                      (fun v => match v with | Cell.str s => some s | _ => none)).count s
                 → pyStrLe m s = true)
             ∧ c2.vals = (c.vals.map textNorm).map
                 (fun v => if v = Cell.na then Cell.str m else v))) := by
  have hnum : (numStep c).1 = c := by
    unfold numStep
    rw [if_neg (by rw [hdt]; intro hx; exact Dtype.noConfusion hx)]
  have hmem : (catStep c).1 ∈ ((cleanData df).1).cols := by
    rw [cleanData_fst]
    dsimp only
    have h1 : c ∈ (df.dropDuplicates).cols.map (fun x => (numStep x).1) := by
      rw [← hnum]
      exact List.mem_map_of_mem _ hc
    exact List.mem_map_of_mem _ h1
  have hcatc : catStep c = cleanTextCol c := by unfold catStep; rw [if_pos hdt]
  refine ⟨(catStep c).1, hmem, catStep_name c, by rw [catStep_dt]; exact hdt, ?_, ?_⟩
  · intro h0
    rw [hcatc]
    unfold cleanTextCol
    dsimp only
    rw [h0]
    rfl
  · intro hpos
    rw [hcatc]
    unfold cleanTextCol
    dsimp only
    rw [if_pos hpos]
    cases hmode : modeFirst ((c.vals.map textNorm).filterMap
        (fun v => match v with | Cell.str s => some s | _ => none)) with
    | none =>
      dsimp only
      exact Or.inl ⟨modeFirst_eq_none _ hmode, rfl⟩
    | some m =>
      dsimp only
      exact Or.inr ⟨m, modeFirst_mem _ m hmode,
        fun s hs => modeFirst_count_le _ m hmode s hs,
        fun s hs hcnt => modeFirst_least _ m hmode s hs hcnt, rfl⟩

/-- Witness for the C5 theorem on a one-column frame with mixed spellings
and a missing cell. -/
theorem clean_data_text_columns_witness :
    ∃ c2 ∈ ((cleanData ⟨[⟨"resp", .object,
        [.str " si ", .str "NO", .na, .str "b"]⟩]⟩).1).cols,
      c2.name = "resp" ∧ c2.dt = Dtype.object := by
  rcases clean_data_text_columns
      ⟨[⟨"resp", .object, [.str " si ", .str "NO", .na, .str "b"]⟩]⟩
      ⟨"resp", .object, [.str " si ", .str "NO", .na, .str "b"]⟩
      (by decide) rfl with ⟨c2, hmem, hname, hdt2, _⟩
  exact ⟨c2, hmem, by rw [hname], hdt2⟩

theorem cutLabel_num (q : ℚ) :
    cutLabel (.num q)
      = if 0 ≤ q ∧ q < 30 then some "<30"
        else if 30 ≤ q ∧ q < 40 then some "30-39"
        else if 40 ≤ q ∧ q < 50 then some "40-49"
        else if 50 ≤ q ∧ q < 60 then some "50-59"
        else if 60 ≤ q ∧ q < 100 then some "60+"
        else none := by
  have step : ∀ (lo hi : ℚ) (L : String) (rest : List ((ℚ × ℚ) × String)),
      List.findSome? (fun x => if x.1.1 ≤ q ∧ q < x.1.2 then some x.2 else none)
          (((lo, hi), L) :: rest)
        = if lo ≤ q ∧ q < hi then some L
          else List.findSome? (fun x => if x.1.1 ≤ q ∧ q < x.1.2 then some x.2 else none)
            rest := by
    intro lo hi L rest
    rw [List.findSome?_cons]
    dsimp only
    by_cases h : lo ≤ q ∧ q < hi
    · rw [if_pos h, if_pos h]
    · rw [if_neg h, if_neg h]
  unfold cutLabel
  dsimp only
  rw [show (ageBins.zip ageBins.tail).zip ageLabels
      = [(((0 : ℚ), (30 : ℚ)), "<30"), ((30, 40), "30-39"), ((40, 50), "40-49"),
         ((50, 60), "50-59"), ((60, 100), "60+")] from rfl]
  rw [step, step, step, step, step]
  rfl

theorem cutLabel_beq_lt30 (q : ℚ) :
    (cutLabel (.num q) == some "<30") = decide ((0 : ℚ) ≤ q ∧ q < 30) := by
  rw [cutLabel_num]
  split_ifs with h1 h2 h3 h4 h5
  · rw [decide_eq_true h1]; rfl
  · rw [decide_eq_false h1]; rfl
  · rw [decide_eq_false h1]; rfl
  · rw [decide_eq_false h1]; rfl
  · rw [decide_eq_false h1]; rfl
  · rw [decide_eq_false h1]; rfl

theorem cutLabel_beq_3039 (q : ℚ) :
    (cutLabel (.num q) == some "30-39") = decide ((30 : ℚ) ≤ q ∧ q < 40) := by
  rw [cutLabel_num]
  split_ifs with h1 h2 h3 h4 h5
  · rw [decide_eq_false (by rcases h1 with ⟨ha, hb⟩; rintro ⟨hc, hd⟩; linarith)]; rfl
  · rw [decide_eq_true h2]; rfl
  · rw [decide_eq_false h2]; rfl
  · rw [decide_eq_false h2]; rfl
  · rw [decide_eq_false h2]; rfl
  · rw [decide_eq_false h2]; rfl

theorem cutLabel_beq_4049 (q : ℚ) :
    (cutLabel (.num q) == some "40-49") = decide ((40 : ℚ) ≤ q ∧ q < 50) := by
  rw [cutLabel_num]
  split_ifs with h1 h2 h3 h4 h5
  · rw [decide_eq_false (by rcases h1 with ⟨ha, hb⟩; rintro ⟨hc, hd⟩; linarith)]; rfl
  · rw [decide_eq_false (by rcases h2 with ⟨ha, hb⟩; rintro ⟨hc, hd⟩; linarith)]; rfl
  · rw [decide_eq_true h3]; rfl
  · rw [decide_eq_false h3]; rfl
  · rw [decide_eq_false h3]; rfl
  · rw [decide_eq_false h3]; rfl

theorem cutLabel_beq_5059 (q : ℚ) :
    (cutLabel (.num q) == some "50-59") = decide ((50 : ℚ) ≤ q ∧ q < 60) := by
  rw [cutLabel_num]
  split_ifs with h1 h2 h3 h4 h5
  · rw [decide_eq_false (by rcases h1 with ⟨ha, hb⟩; rintro ⟨hc, hd⟩; linarith)]; rfl
  · rw [decide_eq_false (by rcases h2 with ⟨ha, hb⟩; rintro ⟨hc, hd⟩; linarith)]; rfl
  · rw [decide_eq_false (by rcases h3 with ⟨ha, hb⟩; rintro ⟨hc, hd⟩; linarith)]; rfl
  · rw [decide_eq_true h4]; rfl
  · rw [decide_eq_false h4]; rfl
  · rw [decide_eq_false h4]; rfl

theorem cutLabel_beq_60plus (q : ℚ) :
    (cutLabel (.num q) == some "60+") = decide ((60 : ℚ) ≤ q ∧ q < 100) := by
  rw [cutLabel_num]
  split_ifs with h1 h2 h3 h4 h5
  · rw [decide_eq_false (by rcases h1 with ⟨ha, hb⟩; rintro ⟨hc, hd⟩; linarith)]; rfl
  · rw [decide_eq_false (by rcases h2 with ⟨ha, hb⟩; rintro ⟨hc, hd⟩; linarith)]; rfl
  · rw [decide_eq_false (by rcases h3 with ⟨ha, hb⟩; rintro ⟨hc, hd⟩; linarith)]; rfl
  · rw [decide_eq_false (by rcases h4 with ⟨ha, hb⟩; rintro ⟨hc, hd⟩; linarith)]; rfl
  · rw [decide_eq_true h5]; rfl
  · rw [decide_eq_false h5]; rfl

theorem count_filterMap {α β : Type} [BEq β] (f : α → Option β) (l : List α) (b : β) :
    (l.filterMap f).count b = l.countP (fun a => f a == some b) := by
  induction l with
  | nil => rfl
  | cons x xs ih =>
    rw [List.filterMap_cons]
    cases hfx : f x with
    | none =>
      rw [List.countP_cons, hfx]
      have hb : ((none : Option β) == some b) = false := rfl
      rw [hb, if_neg (by simp)]
      exact ih
    | some y =>
      rw [List.count_cons, List.countP_cons, ih, hfx]
      have hb : ((some y == some b) : Bool) = (y == b) := rfl
      rw [hb]

theorem count_cutLabel (c : Col) (L : String) (lo hi : ℚ)
    (hLq : ∀ q : ℚ, (cutLabel (.num q) == some L) = decide (lo ≤ q ∧ q < hi)) :
    (c.vals.filterMap cutLabel).count L
      = c.vals.countP
          (fun v => match v with | Cell.num q => decide (lo ≤ q ∧ q < hi) | _ => false) := by
  rw [count_filterMap]
  apply List.countP_congr
  intro v _
  cases v with
  | num q => rw [hLq q]
  | str s => exact Iff.rfl
  | na => exact Iff.rfl

/-- Claim C4 (corrected).  The age histogram of the statistics summary has
exactly the five buckets labeled by `ageLabels`, but every bucket is
right-open, including the top one: the bins come from `pd.cut` with
`right=False`, so ages 30, 40, 50 and 60 fall in the higher band, while an
age of exactly 100 falls in no bucket at all (it is not counted in 60+). -/
theorem age_groups_right_open (df : DataFrame) (c : Col)
    (hc : df.getCol "age" = some c) :
    getAgeGroups df
      = [("<30", c.vals.countP
            (fun v => match v with | Cell.num q => decide ((0 : ℚ) ≤ q ∧ q < 30) | _ => false)),
         ("30-39", c.vals.countP
            (fun v => match v with | Cell.num q => decide ((30 : ℚ) ≤ q ∧ q < 40) | _ => false)),
         ("40-49", c.vals.countP
            (fun v => match v with | Cell.num q => decide ((40 : ℚ) ≤ q ∧ q < 50) | _ => false)),
         ("50-59", c.vals.countP
            (fun v => match v with | Cell.num q => decide ((50 : ℚ) ≤ q ∧ q < 60) | _ => false)),
         ("60+", c.vals.countP
            (fun v => match v with | Cell.num q => decide ((60 : ℚ) ≤ q ∧ q < 100) | _ => false))] := by
  unfold getAgeGroups
  rw [hc]
  dsimp only
  rw [show ageLabels = ["<30", "30-39", "40-49", "50-59", "60+"] from rfl]
  simp only [List.map_cons, List.map_nil]
  rw [count_cutLabel c "<30" 0 30 cutLabel_beq_lt30,
    count_cutLabel c "30-39" 30 40 cutLabel_beq_3039,
    count_cutLabel c "40-49" 40 50 cutLabel_beq_4049,
    count_cutLabel c "50-59" 50 60 cutLabel_beq_5059,
    count_cutLabel c "60+" 60 100 cutLabel_beq_60plus]

/-- Witness for the C4 theorem: ages 29, 30, 60 and 100, where 30 and 60 go
to the higher band and 100 is dropped. -/
theorem age_groups_right_open_witness :
    getAgeGroups ⟨[⟨"age", .numeric, [.num 29, .num 30, .num 60, .num 100, .na]⟩]⟩
      = [("<30", 1), ("30-39", 1), ("40-49", 0), ("50-59", 0), ("60+", 1)] := by
  rw [age_groups_right_open ⟨[⟨"age", .numeric, [.num 29, .num 30, .num 60, .num 100, .na]⟩]⟩
    ⟨"age", .numeric, [.num 29, .num 30, .num 60, .num 100, .na]⟩ rfl]
  decide

theorem corrSums_pos (ps : List (ℚ × ℚ)) (t : ℚ × ℚ × ℚ) (h : corrSums ps = some t) :
    0 < t.2.1 ∧ 0 < t.2.2 := by
  unfold corrSums at h
  cases hmx : listMeanQ (ps.map (·.1)) with
  | none => rw [hmx] at h; exact Option.noConfusion h
  | some mx =>
    cases hmy : listMeanQ (ps.map (·.2)) with
    | none => rw [hmx, hmy] at h; exact Option.noConfusion h
    | some my =>
      rw [hmx, hmy] at h
      dsimp only at h
      by_cases hz : (ps.map (fun p => (p.1 - mx) ^ 2)).sum = 0
          ∨ (ps.map (fun p => (p.2 - my) ^ 2)).sum = 0
      · rw [if_pos hz] at h; exact Option.noConfusion h
      · rw [if_neg hz] at h
        have ht := Option.some.inj h
        push_neg at hz
        have h1 : 0 ≤ (ps.map (fun p => (p.1 - mx) ^ 2)).sum := by
          apply List.sum_nonneg
          intro x hx
          rcases List.mem_map.mp hx with ⟨p, _, hp⟩
          rw [← hp]
          positivity
        have h2 : 0 ≤ (ps.map (fun p => (p.2 - my) ^ 2)).sum := by
          apply List.sum_nonneg
          intro x hx
          rcases List.mem_map.mp hx with ⟨p, _, hp⟩
          rw [← hp]
          positivity
        rw [← ht]
        exact ⟨lt_of_le_of_ne h1 (Ne.symm hz.1), lt_of_le_of_ne h2 (Ne.symm hz.2)⟩

theorem kendallSums_pos (ps : List (ℚ × ℚ)) (t : ℚ × ℚ × ℚ) (h : kendallSums ps = some t) :
    0 < t.2.1 ∧ 0 < t.2.2 := by
  unfold kendallSums at h
  dsimp only at h
  by_cases hz : (((pairsOf ps).length
        - (pairsOf ps).countP (fun ab => ab.1.1 == ab.2.1) : ℕ) : ℚ) = 0
      ∨ (((pairsOf ps).length
        - (pairsOf ps).countP (fun ab => ab.1.2 == ab.2.2) : ℕ) : ℚ) = 0
  · rw [if_pos hz] at h; exact Option.noConfusion h
  · rw [if_neg hz] at h
    have ht := Option.some.inj h
    push_neg at hz
    rw [← ht]
    exact ⟨lt_of_le_of_ne (Nat.cast_nonneg _) (Ne.symm hz.1),
      lt_of_le_of_ne (Nat.cast_nonneg _) (Ne.symm hz.2)⟩

theorem methodSums_pos (m : CorrMethod) (xs ys : List Cell) (t : ℚ × ℚ × ℚ)
    (h : methodSums m xs ys = some t) : 0 < t.2.1 ∧ 0 < t.2.2 := by
  unfold methodSums at h
  cases m with
  | pearson => exact corrSums_pos _ t h
  | spearman => exact corrSums_pos _ t h
  | kendall => exact kendallSums_pos _ t h

theorem mem_significantRaw (m : CorrMethod) (nc : List Col) (e : CorrPair)
    (he : e ∈ significantRaw m nc) :
    0 < e.sxx ∧ 0 < e.syy ∧ e.rSq = e.sxy ^ 2 / (e.sxx * e.syy) ∧ 9 / 100 < e.rSq := by
  unfold significantRaw at he
  rw [List.mem_flatMap] at he
  rcases he with ⟨ic, _, he⟩
  rw [List.mem_filterMap] at he
  rcases he with ⟨jc, _, hje⟩
  cases hms : methodSums m ic.2.vals jc.2.vals with
  | none => rw [hms] at hje; exact Option.noConfusion hje
  | some t =>
    rw [hms] at hje
    dsimp only at hje
    by_cases hgt : t.1 ^ 2 / (t.2.1 * t.2.2) > 9 / 100
    · rw [if_pos hgt] at hje
      have he2 := Option.some.inj hje
      have hpos := methodSums_pos m _ _ t hms
      rw [← he2]
      exact ⟨hpos.1, hpos.2, rfl, hgt⟩
    · rw [if_neg hgt] at hje; exact Option.noConfusion hje

theorem abs_corr_eq_sqrt (e : CorrPair) (h1 : 0 < e.sxx) (h2 : 0 < e.syy)
    (h3 : e.rSq = e.sxy ^ 2 / (e.sxx * e.syy)) :
    |e.correlation| = Real.sqrt ((e.rSq : ℚ) : ℝ) := by
  unfold CorrPair.correlation corrOfSums
  dsimp only
  rw [h3]
  push_cast
  rw [abs_div, abs_of_nonneg (Real.sqrt_nonneg _),
    Real.sqrt_div (by positivity) ((e.sxx : ℝ) * (e.syy : ℝ)), Real.sqrt_sq_eq_abs]

theorem strength_buckets (x : ℝ) (h : (3 : ℝ) / 10 < x) :
    correlationStrength x = "weak" ∨ correlationStrength x = "moderate"
      ∨ correlationStrength x = "strong" := by
  unfold correlationStrength
  split_ifs with h1 h2 h3
  · right; right; rfl
  · right; left; rfl
  · left; rfl
  · exfalso
    apply h3
    have h03 : (0.3 : ℝ) = 3 / 10 := by norm_num
    linarith

/-- Claim C3 (corrected).  `get_correlations` fails exactly when the numeric
sub-frame is empty, which happens when there are no numeric columns or when
the frame has zero rows: a single numeric column is enough for success
(second-counterexample: the empty significant list), contrary to the claimed
fewer-than-2 threshold.  On success the significant list holds pairs with
absolute correlation above 0.3, tagged weak, moderate or strong (never very
weak), sorted descending by absolute correlation. -/
theorem get_correlations_spec (df : DataFrame) (m : CorrMethod) :
    ((getCorrelations df m).isSuccess = false ↔ (df.numericCols = [] ∨ df.nrows = 0))
    ∧ ∀ r, getCorrelations df m = .success r →
        List.Sorted (fun a b => |CorrPair.correlation b| ≤ |CorrPair.correlation a|)
          r.significant
        ∧ ∀ e ∈ r.significant,
            (3 : ℝ) / 10 < |e.correlation|
            ∧ (e.strengthTag = "weak" ∨ e.strengthTag = "moderate"
               ∨ e.strengthTag = "strong") := by
  constructor
  · unfold getCorrelations
    dsimp only
    by_cases hcond : (df.numericCols.isEmpty || df.nrows == 0) = true
    · rw [if_pos hcond]
      constructor
      · intro _
        rw [Bool.or_eq_true] at hcond
        rcases hcond with h1 | h2
        · exact Or.inl (List.isEmpty_iff.mp h1)
        · exact Or.inr (beq_iff_eq.mp h2)
      · intro _
        rfl
    · rw [if_neg hcond]
      constructor
      · intro hfalse
        exact Bool.noConfusion hfalse
      · intro hor
        exfalso
        apply hcond
        rw [Bool.or_eq_true]
        rcases hor with h1 | h2
        · exact Or.inl (List.isEmpty_iff.mpr h1)
        · exact Or.inr (by rw [h2]; rfl)
  · intro r hr
    have hsig : r.significant = (significantRaw m df.numericCols).insertionSort corrGE := by
      unfold getCorrelations at hr
      dsimp only at hr
      by_cases hcond : (df.numericCols.isEmpty || df.nrows == 0) = true
      · rw [if_pos hcond] at hr
        exact SvcResult.noConfusion hr
      · rw [if_neg hcond] at hr
        rw [← SvcResult.success.inj hr]
    constructor
    · rw [hsig]
      have hsorted := List.sorted_insertionSort corrGE (significantRaw m df.numericCols)
      refine List.Pairwise.imp_of_mem ?_ hsorted
      intro a b ha hb hab
      rw [List.mem_insertionSort] at ha hb
      have hfa := mem_significantRaw m _ a ha
      have hfb := mem_significantRaw m _ b hb
      rw [abs_corr_eq_sqrt a hfa.1 hfa.2.1 hfa.2.2.1,
        abs_corr_eq_sqrt b hfb.1 hfb.2.1 hfb.2.2.1]
      have hab2 : b.rSq ≤ a.rSq := hab
      exact Real.sqrt_le_sqrt (by exact_mod_cast hab2)
    · intro e he
      rw [hsig, List.mem_insertionSort] at he
      have hf := mem_significantRaw m _ e he
      have habs := abs_corr_eq_sqrt e hf.1 hf.2.1 hf.2.2.1
      have hgt : (3 : ℝ) / 10 < |e.correlation| := by
        rw [habs]
        rw [show (3 : ℝ) / 10 = Real.sqrt (9 / 100) from by
          rw [show (9 : ℝ) / 100 = ((3 : ℝ) / 10) ^ 2 from by norm_num,
            Real.sqrt_sq (by norm_num)]]
        apply Real.sqrt_lt_sqrt (by norm_num)
        have h9 := hf.2.2.2
        have h92 : ((9 / 100 : ℚ) : ℝ) < ((e.rSq : ℚ) : ℝ) := by exact_mod_cast h9
        calc (9 : ℝ) / 100 = ((9 / 100 : ℚ) : ℝ) := by norm_num
          _ < _ := h92
      refine ⟨hgt, ?_⟩
      unfold CorrPair.strengthTag
      exact strength_buckets _ hgt

/-- Witness for the C3 theorem: two perfectly correlated numeric columns; the
significant list holds the single pair, strongly correlated. -/
theorem get_correlations_spec_witness :
    ((getCorrelations ⟨[⟨"a", .numeric, [.num 1, .num 2]⟩,
        ⟨"b", .numeric, [.num 2, .num 4]⟩]⟩ .pearson).isSuccess = false
      ↔ ((⟨[⟨"a", .numeric, [.num 1, .num 2]⟩,
          ⟨"b", .numeric, [.num 2, .num 4]⟩]⟩ : DataFrame).numericCols = []
        ∨ (⟨[⟨"a", .numeric, [.num 1, .num 2]⟩,
          ⟨"b", .numeric, [.num 2, .num 4]⟩]⟩ : DataFrame).nrows = 0))
    ∧ List.Sorted (fun a b => |CorrPair.correlation b| ≤ |CorrPair.correlation a|)
        [(⟨"a", "b", 1, 1/2, 2, 1⟩ : CorrPair)]
    ∧ ∀ e ∈ [(⟨"a", "b", 1, 1/2, 2, 1⟩ : CorrPair)],
        (3 : ℝ) / 10 < |e.correlation|
        ∧ (e.strengthTag = "weak" ∨ e.strengthTag = "moderate"
           ∨ e.strengthTag = "strong") := by
  have h := get_correlations_spec
    ⟨[⟨"a", .numeric, [.num 1, .num 2]⟩, ⟨"b", .numeric, [.num 2, .num 4]⟩]⟩ .pearson
  have h2 := h.2 ⟨.pearson,
    [("a", [("a", (1/2, 1/2, 1/2)), ("b", (1, 2, 1/2))]),
     ("b", [("a", (1, 1/2, 2)), ("b", (2, 2, 2))])],
    [⟨"a", "b", 1, 1/2, 2, 1⟩]⟩ (by decide)
  exact ⟨h.1, h2.1, h2.2⟩

theorem fillMeanCol_name (c : Col) : (fillMeanCol c).name = c.name := by
  unfold fillMeanCol
  cases listMeanQ c.presentNums <;> rfl

theorem prepareData_shape (df : DataFrame) (tcn : String) (prep : PrepData)
    (h : prepareData df tcn = .success prep) :
    prep.featureNames = prep.xCols.map (fun c => c.name)
    ∧ prep.featureMeans = prep.xCols.map (fun c => (c.name, listMeanQ c.presentNums)) := by
  unfold prepareData at h
  split at h
  · exact SvcResult.noConfusion h
  · dsimp only at h
    split at h
    · exact SvcResult.noConfusion h
    · split at h
      · exact SvcResult.noConfusion h
      · have h2 := SvcResult.success.inj h
        rw [← h2]
        refine ⟨?_, rfl⟩
        dsimp only
        rw [List.map_map]
        apply List.map_congr_left
        intro c _
        show c.name = (fillMeanCol c).name
        rw [fillMeanCol_name]

theorem lookup_of_mem_keys {β : Type} (l : List (String × β)) (f : String)
    (h : f ∈ l.map (fun p => p.1)) : ∃ b, l.lookup f = some b := by
  induction l with
  | nil => simp at h
  | cons x t ih =>
    obtain ⟨k, b⟩ := x
    rw [List.map_cons, List.mem_cons] at h
    by_cases hk : (f == k) = true
    · refine ⟨b, ?_⟩
      unfold List.lookup
      rw [hk]
    · have hf : f ∈ t.map (fun p => p.1) := by
        rcases h with h | h
        · exact absurd (beq_iff_eq.mpr h) hk
        · exact h
      rcases ih hf with ⟨b2, hb2⟩
      refine ⟨b2, ?_⟩
      unfold List.lookup
      rw [Bool.eq_false_iff.mpr hk]
      exact hb2

theorem lookup_mem_pairs {β : Type} (l : List (String × β)) (f : String) (b : β)
    (h : l.lookup f = some b) : ∃ p ∈ l, p.2 = b := by
  induction l with
  | nil => exact Option.noConfusion h
  | cons x t ih =>
    obtain ⟨k, v⟩ := x
    unfold List.lookup at h
    by_cases hk : (f == k) = true
    · rw [hk] at h
      dsimp only at h
      exact ⟨(k, v), List.mem_cons_self _ _, Option.some.inj h⟩
    · rw [Bool.eq_false_iff.mpr hk] at h
      dsimp only at h
      rcases ih h with ⟨p, hp, hpb⟩
      exact ⟨p, List.mem_cons_of_mem _ hp, hpb⟩

theorem sigmoid_bounds (z : ℝ) : 0 ≤ sigmoid z ∧ sigmoid z ≤ 1 := by
  unfold sigmoid
  have hpos : 0 < 1 + Real.exp (-z) := by positivity
  constructor
  · positivity
  · rw [div_le_one hpos]
    have he := Real.exp_pos (-z)
    linarith

/-- Claim C1 (confirmed).  When `prepare_data` on target `cancer` succeeds
and a logistic regression is fitted (every stored feature mean exists, and
the fitted coefficient, scaler-mean and scaler-scale vectors have one entry
per feature), `predict_single` on the empty feature dictionary succeeds:
the feature row falls back to the stored per-feature training means (zero
only when the means dictionary has no entry), every feature name has a
stored mean entry, and the returned probability lies in `[0, 1]`. -/
theorem predict_empty_input_spec (prep : PrepData) (df : DataFrame) (mdl : LinModel)
    (mu sc : List ℚ)
    (hprep : prepareData df "cancer" = .success prep)
    (hmeans : ∀ fm ∈ prep.featureMeans, fm.2.isSome = true)
    (hlen1 : mu.length = prep.featureNames.length)
    (hlen2 : sc.length = prep.featureNames.length)
    (hlen3 : mdl.weights.length = prep.featureNames.length) :
    (imputeRow prep.featureNames prep.featureMeans []
      = prep.featureNames.map (fun f =>
          if prep.featureMeans.isEmpty then some 0
          else match prep.featureMeans.lookup f with
            | some mo => mo
            | none => some 0))
    ∧ (∀ f ∈ prep.featureNames, ∃ mo, prep.featureMeans.lookup f = some mo)
    ∧ ∃ pr p risk interp,
        predictSingle ⟨[("logistic_regression", mdl)], some mu, sc,
            some prep.featureNames, prep.featureMeans⟩ [] "logistic_regression"
          = .ok pr p risk interp
        ∧ 0 ≤ p ∧ p ≤ 1 := by
  have hshape := prepareData_shape df "cancer" prep hprep
  have hkeys : ∀ f ∈ prep.featureNames, ∃ mo, prep.featureMeans.lookup f = some mo := by
    intro f hf
    apply lookup_of_mem_keys
    rw [hshape.2, List.map_map]
    rw [hshape.1] at hf
    exact hf
  have hrowfix : imputeRow prep.featureNames prep.featureMeans []
      = prep.featureNames.map (fun f =>
          if prep.featureMeans.isEmpty then some 0
          else match prep.featureMeans.lookup f with
            | some mo => mo
            | none => some 0) := rfl
  refine ⟨hrowfix, hkeys, ?_⟩
  have hany : (imputeRow prep.featureNames prep.featureMeans []).any
      (fun o => o.isNone) = false := by
    rw [List.any_eq_false]
    intro o ho
    unfold imputeRow at ho
    rcases List.mem_map.mp ho with ⟨f, hf, hfe⟩
    by_cases hemp : prep.featureMeans.isEmpty = true
    · rw [if_pos hemp] at hfe
      rw [← hfe]
      exact fun hx => Bool.noConfusion hx
    · rw [if_neg hemp] at hfe
      rcases hkeys f hf with ⟨mo, hmo⟩
      rw [hmo] at hfe
      dsimp only at hfe
      rcases lookup_mem_pairs _ f mo hmo with ⟨pr, hpr, hprb⟩
      have hsome := hmeans pr hpr
      rw [hprb] at hsome
      cases mo with
      | none => exact absurd hsome (by simp)
      | some q => rw [← hfe]; exact fun hx => Bool.noConfusion hx
  have hrowlen : (imputeRow prep.featureNames prep.featureMeans []).length
      = prep.featureNames.length := by
    unfold imputeRow
    rw [List.length_map]
  have hxslen : ((imputeRow prep.featureNames prep.featureMeans []).map
      (fun o => o.getD 0)).length = prep.featureNames.length := by
    rw [List.length_map]
    exact hrowlen
  unfold predictSingle
  rw [show List.lookup "logistic_regression" [("logistic_regression", mdl)]
    = some mdl from rfl]
  dsimp only
  rw [hany, if_neg Bool.false_ne_true]
  rw [if_neg (show ¬(((imputeRow prep.featureNames prep.featureMeans []).map
        (fun o => o.getD 0)).length ≠ mu.length
      ∨ mu.length ≠ sc.length
      ∨ mdl.weights.length ≠ ((imputeRow prep.featureNames prep.featureMeans []).map
        (fun o => o.getD 0)).length) from by
    rintro (h | h | h)
    · exact h (by rw [hxslen, hlen1])
    · exact h (by rw [hlen1, hlen2])
    · exact h (by rw [hlen3, hxslen]))]
  refine ⟨_, _, _, _, rfl, (sigmoid_bounds _).1, (sigmoid_bounds _).2⟩

/-- Witness for the C1 theorem: ten rows, five of each target class, one
numeric feature with mean 45; the empty input is imputed to that mean and
the prediction succeeds. -/
theorem predict_empty_input_witness :
    imputeRow ["age"] [("age", some (45 : ℚ))] [] = [some (45 : ℚ)]
    ∧ ∃ pr p risk interp,
        predictSingle ⟨[("logistic_regression", ⟨[1], 0⟩)], some [45], [1],
            some ["age"], [("age", some (45 : ℚ))]⟩ [] "logistic_regression"
          = .ok pr p risk interp
        ∧ 0 ≤ p ∧ p ≤ 1 := by
  have h := predict_empty_input_spec
    ⟨["age"], [("age", some 45)],
      [⟨"age", .numeric, [.num 31, .num 32, .num 33, .num 34, .num 35,
        .num 55, .num 56, .num 57, .num 58, .num 59]⟩],
      [1, 1, 1, 1, 1, 0, 0, 0, 0, 0]⟩
    ⟨[⟨"age", .numeric, [.num 31, .num 32, .num 33, .num 34, .num 35,
        .num 55, .num 56, .num 57, .num 58, .num 59]⟩,
      ⟨"cancer", .object, [.str "Yes", .str "Yes", .str "Yes", .str "Yes", .str "Yes",
        .str "No", .str "No", .str "No", .str "No", .str "No"]⟩]⟩
    ⟨[1], 0⟩ [45] [1] (by decide) (by decide) rfl rfl rfl
  exact ⟨h.1.trans (by decide), h.2.2⟩

end PipelineModel
